import Mathlib

/-!
Verification of the decode-pipeline orchestration layer of
`src/libavcodec/decode.c` (libav) via a shallow embedding.

The C source is translated function by function into executable Lean
definitions.  Machine arithmetic conventions used throughout:
* `int` values are modelled as `Int`; wrap-around is made explicit with
  `% 2^32` only where the source can actually overflow.
* `size_t` values (the frame cropping fields) are modelled as `Nat` with
  explicit `% 2^64` where the C arithmetic wraps.
* pointers are modelled as `Nat` addresses; `NULL` is absence (`Option`, or
  an empty list of planes).
* fallible C functions return an `Int` status (negative = error) exactly as
  the source does; `av_assert0` failures and reads of uninitialized memory
  are modelled by the distinguished outcomes `COut.abort` / `COut.undef`.
* external collaborators (codec backends, bitstream filters, allocators,
  image-layout helpers) are opaque in the source and are passed in as
  oracle functions, indexed by a call counter kept in the state.
-/

/-- AVERROR(EAGAIN): "would block", caller must retry. -/
def AVERROR_EAGAIN : Int := -11

/-- AVERROR(ENOMEM): out of memory. -/
def AVERROR_ENOMEM : Int := -12

/-- AVERROR(EINVAL): invalid argument / misuse. -/
def AVERROR_EINVAL : Int := -22

/-- AVERROR_EOF = FFERRTAG('E','O','F',' '). -/
def AVERROR_EOF : Int := -541478725

/-- AVERROR_INVALIDDATA = FFERRTAG('I','N','D','A'). -/
def AVERROR_INVALIDDATA : Int := -1094995529

/-- AVERROR_BUG = FFERRTAG('B','U','G','!'). -/
def AVERROR_BUG : Int := -558323010

/-- AV_NOPTS_VALUE = INT64_MIN. -/
def AV_NOPTS_VALUE : Int := -(2^63)

/-- INT_MAX, as it appears (converted to `size_t`) in the cropping checks. -/
def INT_MAX : Nat := 2147483647

/-- Outcome of a C function call in the model: a returned value, an
`av_assert0` failure (process abort), a read of uninitialized memory
(undefined behaviour), or fuel exhaustion of a source loop that has no
structural termination measure. -/
inductive COut (α : Type) where
  | ret (a : α)
  | abort
  | undef
  | spin
  deriving Repr, DecidableEq

/-- Conversion of a C `int` to `size_t` (sign extension modulo 2^64). -/
def intToSizeT (w : Int) : Nat := (w % (2^64 : Int)).toNat

/-- Subtraction `a - b` in `size_t` arithmetic (operands reduced mod 2^64). -/
def sizeSub (a b : Nat) : Nat := (a % 2^64 + 2^64 - b % 2^64) % 2^64

/-- Fuelled trailing-zero count used to model `av_ctz`. -/
def ctzFuel : Nat → Nat → Nat
  | 0, _ => 0
  | fuel + 1, n => if n % 2 = 0 ∧ n ≠ 0 then ctzFuel fuel (n / 2) + 1 else 0

/-- Model of `av_ctz`: count of trailing zero bits.  In the source the `size_t`
offset is passed through an `int` parameter; the truncation is immaterial
for the offsets of any real frame and is not modelled. -/
def av_ctz (n : Nat) : Nat := ctzFuel 64 n

/-- A pixel-format component descriptor (`AVComponentDescriptor`): the
plane it lives in and its byte step. -/
structure PixComp where
  plane : Nat
  step : Nat
  deriving Repr, DecidableEq

/-- The slice of `AVPixFmtDescriptor` read by the cropping code. -/
structure PixFmtDesc where
  log2_chroma_w : Nat
  log2_chroma_h : Nat
  /-- `desc->flags & (AV_PIX_FMT_FLAG_PAL | AV_PIX_FMT_FLAG_PSEUDOPAL)` -/
  palFlag : Bool
  /-- `desc->flags & (AV_PIX_FMT_FLAG_BITSTREAM | AV_PIX_FMT_FLAG_HWACCEL)` -/
  bitstreamOrHw : Bool
  comps : List PixComp
  deriving Repr, DecidableEq

/-- The slice of `AVFrame` that the decode driver reads and writes.
`data` holds the addresses of the non-NULL plane pointers (the prefix of
`frame->data[]` that the `for (i = 0; frame->data[i]; i++)` loops walk);
`buf0` is `frame->buf[0] != NULL`. -/
structure CFrame where
  buf0 : Bool
  data : List Nat
  linesize : List Int
  width : Int
  height : Int
  crop_left : Nat
  crop_right : Nat
  crop_top : Nat
  crop_bottom : Nat
  /-- the frame's pixel-format id (`frame->format`) -/
  format : Int
  /-- result of `av_pix_fmt_desc_get(frame->format)` -/
  fmtDesc : Option PixFmtDesc
  pktDts : Int
  sampleAspect : Int
  nbSamples : Nat
  nbChannels : Nat
  deriving Repr, DecidableEq

/-- The fully unset frame (`av_frame_unref` result). -/
def CFrame.unset : CFrame :=
  { buf0 := false, data := [], linesize := [], width := 0, height := 0,
    crop_left := 0, crop_right := 0, crop_top := 0, crop_bottom := 0,
    format := -1, fmtDesc := none, pktDts := AV_NOPTS_VALUE,
    sampleAspect := 0, nbSamples := 0, nbChannels := 0 }

/-- The invalid-cropping check of `apply_cropping` (decode.c:492-495):
`crop_left >= INT_MAX - crop_right || crop_top >= INT_MAX - crop_bottom ||
 (crop_left + crop_right) >= width || (crop_top + crop_bottom) >= height`,
all in `size_t` arithmetic with `width`/`height` converted from `int`. -/
def cropInvalid (f : CFrame) : Bool :=
  decide (f.crop_left % 2^64 ≥ sizeSub INT_MAX f.crop_right) ||
  decide (f.crop_top % 2^64 ≥ sizeSub INT_MAX f.crop_bottom) ||
  decide ((f.crop_left + f.crop_right) % 2^64 ≥ intToSizeT f.width) ||
  decide ((f.crop_top + f.crop_bottom) % 2^64 ≥ intToSizeT f.height)

/-- Zero all four crop margins (the invalid-cropping recovery). -/
def zeroCrops (f : CFrame) : CFrame :=
  { f with crop_left := 0, crop_right := 0, crop_top := 0, crop_bottom := 0 }

/-- Model of `calc_cropping_offsets` (decode.c:453-483), with the left margin made
an explicit argument so the alignment-adjusted recomputation reuses it.
Returns `none` when the source would leave entries of `offsets[]`
uninitialized (a plane without a component descriptor, or a PAL format
with further planes after the palette plane): the caller ignores the
error return and would read uninitialized memory. -/
def calcOffsetsGo (f : CFrame) (cl : Nat) (desc : PixFmtDesc) :
    Nat → List Nat → Option (List Nat)
  | _, [] => some []
  | i, _ :: rest =>
    if desc.palFlag ∧ i = 1 then
      if rest = [] then some [0] else none
    else
      let shift_x := if i = 1 ∨ i = 2 then desc.log2_chroma_w else 0
      let shift_y := if i = 1 ∨ i = 2 then desc.log2_chroma_h else 0
      match desc.comps.find? (fun c => c.plane = i) with
      | none => none
      | some comp =>
        let off := ((f.crop_top >>> shift_y) * intToSizeT (f.linesize.getD i 0)
                    + (cl >>> shift_x) * comp.step) % 2^64
        (calcOffsetsGo f cl desc (i + 1) rest).map (fun os => off :: os)

def calc_cropping_offsets (f : CFrame) (cl : Nat) (desc : PixFmtDesc) :
    Option (List Nat) :=
  calcOffsetsGo f cl desc 0 f.data

/-- The minimum offset alignment over the frame's planes
(decode.c:532-537): `offsets[i] ? av_ctz(offsets[i]) : INT_MAX`, minimised. -/
def minLog2Align (offs : List Nat) : Nat :=
  offs.foldl (fun acc o => min acc (if o = 0 then INT_MAX else av_ctz o)) INT_MAX

/-- The alignment adjustment of `apply_cropping` (decode.c:531-543): when
the minimum alignment is below 5 bits, clear the low `min_log2_align` bits
of `crop_left` (`crop_left &= ~((1 << min_log2_align) - 1)`, i.e. round
down to a multiple of `2^min_log2_align`) and recompute the offsets. -/
def adjustAlign (f : CFrame) (desc : PixFmtDesc) (offs : List Nat) :
    Option (Nat × List Nat) :=
  let m := minLog2Align offs
  if m < 5 then
    let cl := f.crop_left - f.crop_left % 2^m
    (calc_cropping_offsets f cl desc).map (fun os => (cl, os))
  else
    some (f.crop_left, offs)

/-- Result of `apply_cropping`: the updated frame, the return status, and
whether the invalid-cropping warning was logged. -/
structure CropOut where
  frame : CFrame
  ret : COut Int
  warned : Bool
  deriving Repr, DecidableEq

/-- Model of `apply_cropping` (decode.c:485-556).  `applyCrop` is
`avctx->apply_cropping`, `unaligned` is
`avctx->flags & AV_CODEC_FLAG_UNALIGNED`. -/
def apply_cropping (applyCrop unaligned : Bool) (f : CFrame) : CropOut :=
  if cropInvalid f then
    { frame := zeroCrops f, ret := .ret 0, warned := true }
  else if applyCrop = false then
    { frame := f, ret := .ret 0, warned := false }
  else
    match f.fmtDesc with
    | none => { frame := f, ret := .ret AVERROR_BUG, warned := false }
    | some desc =>
      if desc.bitstreamOrHw then
        { frame := { f with
            width := f.width - (f.crop_right : Int),
            height := f.height - (f.crop_bottom : Int),
            crop_right := 0, crop_bottom := 0 },
          ret := .ret 0, warned := false }
      else
        match calc_cropping_offsets f f.crop_left desc with
        | none => { frame := f, ret := .undef, warned := false }
        | some offs0 =>
          match (if unaligned then some (f.crop_left, offs0)
                 else adjustAlign f desc offs0) with
          | none => { frame := f, ret := .undef, warned := false }
          | some (cl, offs) =>
            { frame := { f with
                data := f.data.zipWith (fun d o => d + o) offs,
                width := f.width - ((cl + f.crop_right : Nat) : Int),
                height := f.height - ((f.crop_top + f.crop_bottom : Nat) : Int),
                crop_left := 0, crop_right := 0,
                crop_top := 0, crop_bottom := 0 },
              ret := .ret 0, warned := false }

def specAlignedCropLeft (f : CFrame) (desc : PixFmtDesc) : Option Nat :=
  (List.range (f.crop_left + 1)).reverse.find? (fun cl =>
    match calc_cropping_offsets f cl desc with
    | some offs => decide (5 ≤ minLog2Align offs)
    | none => false)

def croppedResult (f : CFrame) (cl : Nat) (offs : List Nat) : CFrame :=
  { f with
    data := f.data.zipWith (fun d o => d + o) offs,
    width := f.width - ((cl + f.crop_right : Nat) : Int),
    height := f.height - ((f.crop_top + f.crop_bottom : Nat) : Int),
    crop_left := 0, crop_right := 0, crop_top := 0, crop_bottom := 0 }

def onePlaneDesc : PixFmtDesc :=
  { log2_chroma_w := 0, log2_chroma_h := 0, palFlag := false,
    bitstreamOrHw := false, comps := [{ plane := 0, step := 1 }] }

def c6Frame : CFrame :=
  { buf0 := true, data := [32], linesize := [64], width := 100, height := 10,
    crop_left := 2, crop_right := 0, crop_top := 0, crop_bottom := 0,
    format := 0, fmtDesc := some onePlaneDesc, pktDts := 0, sampleAspect := 0,
    nbSamples := 0, nbChannels := 0 }

def c5Frame : CFrame :=
  { buf0 := true, data := [32], linesize := [64], width := 16, height := 10,
    crop_left := 10, crop_right := 10, crop_top := 0, crop_bottom := 0,
    format := 0, fmtDesc := some onePlaneDesc, pktDts := 0, sampleAspect := 0,
    nbSamples := 0, nbChannels := 0 }

/-! ### Theorems are collected at the end of the file. -/

/-- The slice of `AVPacket` the decode driver manipulates.  `hasData` is
`pkt->data != NULL`; `paramChange` is the `AV_PKT_DATA_PARAM_CHANGE` side
data payload (`none` when absent); other side-data kinds are opaque to the
control flow modelled here. -/
structure DrvPkt where
  hasData : Bool
  size : Nat
  pts : Int
  dts : Int
  paramChange : Option (List Nat)
  deriving Repr, DecidableEq

/-- A fully unreferenced packet (`av_packet_unref` result). -/
def DrvPkt.null : DrvPkt :=
  { hasData := false, size := 0, pts := AV_NOPTS_VALUE, dts := AV_NOPTS_VALUE,
    paramChange := none }

/-- The per-instance configuration bits of `AVCodecContext` / `AVCodec`
read by the decode driver (all fixed for the lifetime of an open
instance). -/
structure DecCfg where
  /-- `avcodec_is_open(avctx)` -/
  isOpen : Bool
  /-- `av_codec_is_decoder(avctx->codec)` -/
  isDecoder : Bool
  /-- `codec->capabilities & AV_CODEC_CAP_DELAY` -/
  capDelay : Bool
  /-- `codec->capabilities & AV_CODEC_CAP_PARAM_CHANGE` -/
  capParamChange : Bool
  /-- `codec->capabilities & AV_CODEC_CAP_DR1` -/
  capDr1 : Bool
  /-- `codec->caps_internal & FF_CODEC_CAP_SETS_PKT_DTS` -/
  capSetsPktDts : Bool
  /-- `HAVE_THREADS && avctx->active_thread_type & FF_THREAD_FRAME` -/
  threadFrame : Bool
  /-- `avctx->codec->receive_frame != NULL` -/
  hasReceiveFrame : Bool
  /-- `avctx->codec->flush != NULL` -/
  hasFlush : Bool
  /-- codec / context media type is video -/
  isVideo : Bool
  /-- `avctx->err_recognition & AV_EF_EXPLODE` -/
  errExplode : Bool
  /-- `avctx->refcounted_frames` -/
  refcountedFrames : Bool
  /-- `avctx->apply_cropping` -/
  applyCropping : Bool
  /-- `avctx->flags & AV_CODEC_FLAG_UNALIGNED` -/
  flagUnaligned : Bool
  /-- `avctx->pix_fmt` -/
  pixFmt : Int
  /-- `avctx->sample_fmt` -/
  sampleFmt : Int
  /-- descriptor of `avctx->pix_fmt`, used by the no-DR1 fixup -/
  pixFmtDesc : Option PixFmtDesc
  /-- `avctx->sample_aspect_ratio` (opaque scalar) -/
  sar : Int
  deriving Repr, DecidableEq

/-- The mutable per-instance state: the `AVCodecInternal` fields of the
decode driver plus the `AVCodecContext` fields that `apply_param_change`
mutates, plus one call counter per external-collaborator oracle. -/
structure DecSt where
  draining : Bool
  drainingDone : Bool
  bufferPkt : DrvPkt
  bufferPktValid : Bool
  bufferFrame : CFrame
  compatFrame : CFrame
  toFree : CFrame
  /-- `avci->ds.in_pkt` -/
  inPkt : DrvPkt
  lastPktProps : DrvPkt
  /-- `avci->filter.nb_bsfs` -/
  nbBsfs : Nat
  width : Int
  height : Int
  sampleRate : Int
  channels : Nat
  channelLayout : Nat
  frameNumber : Nat
  compatConsumed : Int
  pollIdx : Nat
  decIdx : Nat
  recvIdx : Nat
  sendIdx : Nat
  deriving Repr, DecidableEq

/-- One outcome of `bsfs_poll` as seen by the driver: a packet, or a
(negative) status code (`AVERROR(EAGAIN)`, `AVERROR_EOF`, or an error). -/
inductive PollR where
  | pkt (p : DrvPkt)
  | code (e : Int)
  deriving Repr, DecidableEq

/-- One response of the simple decode backend (`codec->decode` or
`ff_thread_decode_frame`): the status, the `got_frame` flag, and the frame
contents the backend wrote. -/
structure DecodeResp where
  ret : Int
  gotFrame : Bool
  frame : CFrame
  deriving Repr, DecidableEq

/-- One response of a pull-style backend (`codec->receive_frame`). -/
structure RecvResp where
  ret : Int
  frame : CFrame
  deriving Repr, DecidableEq

/-- The external collaborators of the decode driver, as oracles indexed by
the call counters kept in `DecSt`. -/
structure DecEnv where
  poll : Nat → PollR
  decode : Nat → DecodeResp
  recvFrame : Nat → RecvResp
  /-- results of `av_bsf_send_packet(avci->filter.bsfs[0], ...)` -/
  sendPkt : Nat → Int
  /-- result of constructing the filter chain in `bsfs_init` -/
  bsfsInitRet : Int
  /-- number of filters the chain holds after a successful `bsfs_init` -/
  chainLen : Nat

/-- Little-endian 32-bit read (`bytestream_get_le32`) from a byte list. -/
def le32 (l : List Nat) : Nat :=
  l.getD 0 0 % 256 + 256 * (l.getD 1 0 % 256) + 65536 * (l.getD 2 0 % 256) +
    16777216 * (l.getD 3 0 % 256)

/-- Little-endian 64-bit read (`bytestream_get_le64`). -/
def le64 (l : List Nat) : Nat := le32 l + 4294967296 * le32 (l.drop 4)

/-- Conversion of a `uint32_t` value to a C `int` (two's complement). -/
def int32OfUInt32 (n : Nat) : Int :=
  if n < 2^31 then (n : Int) else (n : Int) - 2^32

/-- Modelled from the spec: `ff_set_dimensions` lives outside this source
slice (only its caller `apply_param_change` is under src/).  The spec says
a dimensions parameter change "sets width/height accordingly", so the
model records the requested dimensions on the context and succeeds. -/
def ff_set_dimensions (st : DecSt) (w h : Int) : DecSt × Int :=
  ({ st with width := w, height := h }, 0)

/-- The `fail`/`fail2` epilogue of `apply_param_change` (decode.c:97-106):
the error is logged and returned only when the caller opted into strict
error recognition (`AV_EF_EXPLODE`); otherwise it is swallowed. -/
def paramChangeFail (cfg : DecCfg) (st : DecSt) (e : Int) : DecSt × Int :=
  if cfg.errExplode then (st, e) else (st, 0)

/-- Model of `apply_param_change` (decode.c:40-107).  The `FF_API_OLD_CHANNEL_LAYOUT`
blocks are compiled in in this tree (its own deprecated fields are still
present), so the channel-count/channel-layout fields are processed. -/
def apply_param_change (cfg : DecCfg) (st : DecSt) (pkt : DrvPkt) :
    DecSt × Int :=
  match pkt.paramChange with
  | none => (st, 0)
  | some d0 =>
    if ¬cfg.capParamChange then
      paramChangeFail cfg st AVERROR_EINVAL
    else if d0.length < 4 then
      paramChangeFail cfg st AVERROR_INVALIDDATA
    else
      let flags := le32 (d0.take 4)
      let d1 := d0.drop 4
      if flags &&& 1 ≠ 0 ∧ d1.length < 4 then
        paramChangeFail cfg st AVERROR_INVALIDDATA
      else
        let st1 := if flags &&& 1 ≠ 0 then
            { st with channels := le32 (d1.take 4) } else st
        let d2 := if flags &&& 1 ≠ 0 then d1.drop 4 else d1
        if flags &&& 2 ≠ 0 ∧ d2.length < 8 then
          paramChangeFail cfg st1 AVERROR_INVALIDDATA
        else
          let st2 := if flags &&& 2 ≠ 0 then
              { st1 with channelLayout := le64 (d2.take 8) } else st1
          let d3 := if flags &&& 2 ≠ 0 then d2.drop 8 else d2
          if flags &&& 4 ≠ 0 ∧ d3.length < 4 then
            paramChangeFail cfg st2 AVERROR_INVALIDDATA
          else
            let st3 := if flags &&& 4 ≠ 0 then
                { st2 with sampleRate := int32OfUInt32 (le32 (d3.take 4)) }
              else st2
            let d4 := if flags &&& 4 ≠ 0 then d3.drop 4 else d3
            if flags &&& 8 ≠ 0 then
              if d4.length < 8 then
                paramChangeFail cfg st3 AVERROR_INVALIDDATA
              else
                let st4 := { st3 with
                  width := int32OfUInt32 (le32 (d4.take 4)),
                  height := int32OfUInt32 (le32 ((d4.drop 4).take 4)) }
                let (st5, r) := ff_set_dimensions st4 st4.width st4.height
                if r < 0 then paramChangeFail cfg st5 r else (st5, 0)
            else (st3, 0)

/-- Model of `extract_packet_props` (decode.c:109-115): unref `last_pkt_props` and
copy the packet's properties (everything except data/size/buffers) into
it.  `av_packet_copy_props` allocation failure is a primitive-service
failure not modelled (the function is modelled total). -/
def extract_packet_props (st : DecSt) (pkt : DrvPkt) : DecSt :=
  { st with lastPktProps := { pkt with hasData := false, size := 0 } }

/-- The tail of `ff_decode_get_packet` after a successful chain poll
(decode.c:286-300): extract the properties, apply parameter changes, and
account the consumed bytes for the legacy shim. -/
def getPacketTail (cfg : DecCfg) (st : DecSt) (pkt : DrvPkt) :
    DecSt × DrvPkt × Int :=
  let st1 := extract_packet_props st pkt
  let (st2, r) := apply_param_change cfg st1 pkt
  if r < 0 then (st2, DrvPkt.null, r)
  else
    let st3 := if cfg.hasReceiveFrame then
        { st2 with compatConsumed := st2.compatConsumed + (pkt.size : Int) }
      else st2
    (st3, pkt, 0)

/-- Model of `ff_decode_get_packet` (decode.c:272-301).  The packet argument is the
caller's in/out packet (`ds.in_pkt` for the simple decoder loop). -/
def ff_decode_get_packet (env : DecEnv) (cfg : DecCfg) (st : DecSt)
    (pkt : DrvPkt) : DecSt × DrvPkt × Int :=
  if st.draining then (st, pkt, AVERROR_EOF)
  else
    let pr := env.poll st.pollIdx
    let st1 := { st with pollIdx := st.pollIdx + 1 }
    match pr with
    | .code e =>
      let st2 := if e = AVERROR_EOF then { st1 with draining := true } else st1
      if e < 0 then (st2, pkt, e)
      else getPacketTail cfg st2 pkt
    | .pkt p => getPacketTail cfg st1 p

/-- The frame parameter fixups applied after a `codec->decode` call
(decode.c:341-350): `pkt_dts` from the packet unless the codec sets it,
and, for non-DR1 codecs, aspect/size/format from the context. -/
def simple_fixups (cfg : DecCfg) (st : DecSt) (f : CFrame) : CFrame :=
  let fA := if ¬cfg.capSetsPktDts then { f with pktDts := st.inPkt.dts } else f
  if ¬cfg.capDr1 then
    { fA with sampleAspect := cfg.sar, width := st.width, height := st.height,
              format := if cfg.isVideo then cfg.pixFmt else cfg.sampleFmt,
              fmtDesc := if cfg.isVideo then cfg.pixFmtDesc else none }
  else fA

/-- The body of `decode_simple_internal` after the packet-pull prologue
(decode.c:324-382). -/
def decode_simple_body (env : DecEnv) (cfg : DecCfg) (st : DecSt)
    (frame : CFrame) : DecSt × CFrame × COut Int :=
  if st.drainingDone then (st, frame, .ret AVERROR_EOF)
  else if ¬st.inPkt.hasData ∧ ¬(cfg.capDelay ∨ cfg.threadFrame) then
    (st, frame, .ret AVERROR_EOF)
  else
    let resp := env.decode st.decIdx
    let st1 := { st with decIdx := st.decIdx + 1 }
    let frame2 :=
      if cfg.threadFrame then resp.frame
      else simple_fixups cfg st1 resp.frame
    let frame3 := if ¬resp.gotFrame then CFrame.unset else frame2
    let ret1 := if resp.ret ≥ 0 ∧ cfg.isVideo then (st1.inPkt.size : Int)
      else resp.ret
    let st2 := if st1.draining ∧ ¬resp.gotFrame then
        { st1 with drainingDone := true } else st1
    let st3 := { st2 with compatConsumed := st2.compatConsumed + ret1 }
    let st4 :=
      if ret1 ≥ (st3.inPkt.size : Int) ∨ ret1 < 0 then
        { st3 with inPkt := DrvPkt.null }
      else
        { st3 with
          inPkt := { st3.inPkt with
            size := st3.inPkt.size - ret1.toNat
            pts := AV_NOPTS_VALUE
            dts := AV_NOPTS_VALUE }
          lastPktProps := { st3.lastPktProps with
            pts := AV_NOPTS_VALUE
            dts := AV_NOPTS_VALUE } }
    if resp.gotFrame ∧ ¬frame3.buf0 then (st4, frame3, .abort)
    else (st4, frame3, .ret (if ret1 < 0 then ret1 else 0))

/-- The continuation of `decode_simple_internal` after the packet pull
(decode.c:319-321): store the pulled packet in `ds.in_pkt` and return
errors other than EOF. -/
def decode_simple_after_pull (env : DecEnv) (cfg : DecCfg)
    (pr : DecSt × DrvPkt × Int) (frame : CFrame) :
    DecSt × CFrame × COut Int :=
  let st2 := { pr.1 with inPkt := pr.2.1 }
  if pr.2.2 < 0 ∧ pr.2.2 ≠ AVERROR_EOF then (st2, frame, .ret pr.2.2)
  else decode_simple_body env cfg st2 frame

/-- Model of `decode_simple_internal` (decode.c:309-383). -/
def decode_simple_internal (env : DecEnv) (cfg : DecCfg) (st : DecSt)
    (frame : CFrame) : DecSt × CFrame × COut Int :=
  if ¬st.inPkt.hasData ∧ ¬st.draining then
    decode_simple_after_pull env cfg
      (ff_decode_get_packet env cfg { st with inPkt := DrvPkt.null }
        DrvPkt.null) frame
  else decode_simple_body env cfg st frame

/-- Model of `decode_simple_receive_frame` (decode.c:385-396): loop until the frame
has a buffer or an error occurs.  The C loop has no structural bound
(a backend may consume input forever without producing), so it is fuelled;
exhaustion yields `COut.spin`. -/
def decode_simple_receive_frame (env : DecEnv) (cfg : DecCfg) :
    Nat → DecSt → CFrame → DecSt × CFrame × COut Int
  | 0, st, frame => (st, frame, .spin)
  | fuel + 1, st, frame =>
    if ¬frame.buf0 then
      match decode_simple_internal env cfg st frame with
      | (st1, f1, .ret r) =>
        if r < 0 then (st1, f1, .ret r)
        else decode_simple_receive_frame env cfg fuel st1 f1
      | (st1, f1, o) => (st1, f1, o)
    else (st, frame, .ret 0)

/-- Model of `decode_receive_frame_internal` (decode.c:398-414). -/
def decode_receive_frame_internal (env : DecEnv) (cfg : DecCfg) (fuel : Nat)
    (st : DecSt) (frame : CFrame) : DecSt × CFrame × COut Int :=
  if frame.buf0 then (st, frame, .abort)
  else
    let r :=
      if cfg.hasReceiveFrame then
        let resp := env.recvFrame st.recvIdx
        ({ st with recvIdx := st.recvIdx + 1 }, resp.frame, COut.ret resp.ret)
      else decode_simple_receive_frame env cfg fuel st frame
    match r with
    | (st1, f1, .ret e) =>
      if e = AVERROR_EOF then ({ st1 with drainingDone := true }, f1, .ret e)
      else (st1, f1, .ret e)
    | out => out

/-- Model of `bsfs_init` (decode.c:162-231) as the driver sees it: a no-op when the
chain exists; otherwise the construction either fails (tearing the partial
chain back down to zero filters) or yields `chainLen` filters. -/
def bsfs_init_model (env : DecEnv) (st : DecSt) : DecSt × Int :=
  if st.nbBsfs ≠ 0 then (st, 0)
  else if env.bsfsInitRet < 0 then (st, env.bsfsInitRet)
  else ({ st with nbBsfs := env.chainLen }, 0)

/-- The packet-queueing middle of `avcodec_send_packet` (decode.c:431-442):
unref the buffered packet, take a reference to the new one when it carries
data or side data, and push it into the first filter.  A successful
`av_bsf_send_packet` moves the reference into the filter, leaving
`buffer_pkt` blank; the failure path unrefs it explicitly. -/
def queuePacket (env : DecEnv) (st : DecSt) (avpkt : Option DrvPkt) :
    DecSt × Int :=
  let st2 := { st with bufferPkt := DrvPkt.null }
  let st3 := match avpkt with
    | some p =>
      if p.hasData ∨ p.paramChange.isSome then { st2 with bufferPkt := p }
      else st2
    | none => st2
  let rs := env.sendPkt st3.sendIdx
  let st4 := { st3 with
    sendIdx := st3.sendIdx + 1
    bufferPkt := DrvPkt.null }
  if rs < 0 then (st4, rs) else (st4, 0)

/-- Model of `avcodec_send_packet` (decode.c:416-451). -/
def avcodec_send_packet (env : DecEnv) (cfg : DecCfg) (fuel : Nat)
    (st : DecSt) (avpkt : Option DrvPkt) : DecSt × COut Int :=
  if ¬(cfg.isOpen ∧ cfg.isDecoder) then (st, .ret AVERROR_EINVAL)
  else if st.draining then (st, .ret AVERROR_EOF)
  else
    let ri := bsfs_init_model env st
    if ri.2 < 0 then (ri.1, .ret ri.2)
    else
      let q := queuePacket env ri.1 avpkt
      if q.2 < 0 then (q.1, .ret q.2)
      else if ¬q.1.bufferFrame.buf0 then
        match decode_receive_frame_internal env cfg fuel q.1
            q.1.bufferFrame with
        | (st5, f5, .ret r) =>
          let st6 := { st5 with bufferFrame := f5 }
          if r < 0 ∧ r ≠ AVERROR_EAGAIN ∧ r ≠ AVERROR_EOF then (st6, .ret r)
          else (st6, .ret 0)
        | (st5, f5, o) => ({ st5 with bufferFrame := f5 }, o)
      else (q.1, .ret 0)

/-- The tail of `avcodec_receive_frame` after a frame was obtained
(decode.c:580-590): video cropping normalization and the frame counter. -/
def receive_frame_finish (cfg : DecCfg) (st : DecSt) (f : CFrame) :
    DecSt × CFrame × COut Int :=
  if cfg.isVideo then
    let co := apply_cropping cfg.applyCropping cfg.flagUnaligned f
    match co.ret with
    | .ret r =>
      if r < 0 then (st, CFrame.unset, .ret r)
      else ({ st with frameNumber := st.frameNumber + 1 }, co.frame, .ret 0)
    | o => (st, co.frame, o)
  else ({ st with frameNumber := st.frameNumber + 1 }, f, .ret 0)

/-- Model of `avcodec_receive_frame` (decode.c:558-591).  The caller's frame is
unconditionally unref'd at entry, so the frame argument of the C function
does not appear. -/
def avcodec_receive_frame (env : DecEnv) (cfg : DecCfg) (fuel : Nat)
    (st : DecSt) : DecSt × CFrame × COut Int :=
  if ¬(cfg.isOpen ∧ cfg.isDecoder) then (st, CFrame.unset, .ret AVERROR_EINVAL)
  else
    let ri := bsfs_init_model env st
    if ri.2 < 0 then (ri.1, CFrame.unset, .ret ri.2)
    else if ri.1.bufferFrame.buf0 then
      receive_frame_finish cfg { ri.1 with bufferFrame := CFrame.unset }
        ri.1.bufferFrame
    else
      match decode_receive_frame_internal env cfg fuel ri.1 CFrame.unset with
      | (st2, f2, .ret r) =>
        if r < 0 then (st2, f2, .ret r)
        else receive_frame_finish cfg st2 f2
      | out => out

/-- Model of `ff_decode_bsfs_uninit` (decode.c:1212-1221): free every filter and
reset the chain to empty. -/
def ff_decode_bsfs_uninit_model (st : DecSt) : DecSt :=
  { st with nbBsfs := 0 }

/-- Model of `avcodec_flush_buffers` (decode.c:1190-1210).  `ff_thread_flush` /
`codec->flush` are external collaborators with no driver-visible state. -/
def avcodec_flush_buffers (cfg : DecCfg) (st : DecSt) : DecSt :=
  let st1 := { st with
    draining := false
    drainingDone := false
    bufferFrame := CFrame.unset
    compatFrame := CFrame.unset
    bufferPkt := DrvPkt.null
    bufferPktValid := false
    inPkt := DrvPkt.null }
  let st2 := ff_decode_bsfs_uninit_model st1
  if ¬cfg.refcountedFrames then { st2 with toFree := CFrame.unset } else st2

/-- The fields of `DecSt` that `avcodec_flush_buffers` preserves (the
"residue": context parameters, props, counters, and `to_free` which is
kept when frames are reference counted). -/
def flushResidue (st : DecSt) :=
  (st.lastPktProps, st.width, st.height, st.sampleRate, st.channels,
   st.channelLayout, st.frameNumber, st.compatConsumed, st.pollIdx,
   st.decIdx, st.recvIdx, st.sendIdx, st.toFree)

/-- A concrete packet used by the witness scenarios. -/
def tPkt : DrvPkt :=
  { hasData := true, size := 4, pts := 0, dts := 0, paramChange := none }

/-- A concrete one-plane video frame with a backing buffer. -/
def tFrameOk : CFrame :=
  { buf0 := true, data := [64], linesize := [64], width := 4, height := 4,
    crop_left := 0, crop_right := 0, crop_top := 0, crop_bottom := 0,
    format := 0, fmtDesc := some onePlaneDesc, pktDts := 0, sampleAspect := 1,
    nbSamples := 0, nbChannels := 0 }

/-- A concrete open video-decoder configuration. -/
def tCfg : DecCfg :=
  { isOpen := true, isDecoder := true, capDelay := false,
    capParamChange := true, capDr1 := true, capSetsPktDts := true,
    threadFrame := false, hasReceiveFrame := false, hasFlush := false,
    isVideo := true, errExplode := false, refcountedFrames := true,
    applyCropping := true, flagUnaligned := false, pixFmt := 0,
    sampleFmt := 0, pixFmtDesc := some onePlaneDesc, sar := 1 }

/-- A concrete environment: the chain yields `tPkt`, the simple backend
produces `tFrameOk` consuming everything. -/
def tEnv : DecEnv :=
  { poll := fun _ => .pkt tPkt,
    decode := fun _ => { ret := 0, gotFrame := true, frame := tFrameOk },
    recvFrame := fun _ => { ret := AVERROR_EAGAIN, frame := CFrame.unset },
    sendPkt := fun _ => 0, bsfsInitRet := 0, chainLen := 1 }

/-- A concrete idle driver state holding one undecoded packet. -/
def tSt : DecSt :=
  { draining := false, drainingDone := false, bufferPkt := DrvPkt.null,
    bufferPktValid := false, bufferFrame := CFrame.unset,
    compatFrame := CFrame.unset, toFree := CFrame.unset, inPkt := tPkt,
    lastPktProps := DrvPkt.null, nbBsfs := 1, width := 4, height := 4,
    sampleRate := 0, channels := 0, channelLayout := 0, frameNumber := 0,
    compatConsumed := 0, pollIdx := 0, decIdx := 0, recvIdx := 0,
    sendIdx := 0 }

/-- The driver state right after `avcodec_send_packet` queues `tPkt`. -/
def c3q : DecSt := (queuePacket tEnv (bsfs_init_model tEnv tSt).1 (some tPkt)).1

/-- The opportunistic decode attempt made inside `avcodec_send_packet`
for the `tPkt` scenario. -/
def c3r : DecSt × CFrame × COut Int :=
  decode_receive_frame_internal tEnv tCfg 2 c3q c3q.bufferFrame

/-- The `FramePool` cached descriptor: shape key, per-plane linesizes and
stride alignments, and one buffer pool per plane (`some size` = an
initialized pool of that buffer size). -/
structure FramePool where
  format : Int
  width : Int
  height : Int
  stride_align : List Nat
  linesize : List Int
  planes : Nat
  channels : Nat
  samples : Nat
  pools : List (Option Int)
  deriving Repr, DecidableEq

/-- The external helpers `update_frame_pool` calls, as oracles. -/
structure PoolEnv where
  /-- `avcodec_align_dimensions2`: aligned width/height and the per-plane
  stride alignments it writes into `pool->stride_align` -/
  align2 : Int → Int → Nat × Nat × List Nat
  /-- `av_image_fill_linesizes` as a function of the working width -/
  fillLinesizes : Nat → List Int
  /-- `av_image_fill_pointers` on a NULL base: (total size or error,
  plane offsets; 0 = plane absent) -/
  fillPtr : Nat → List Int → Int × List Nat
  /-- `av_buffer_pool_init` success, per plane index -/
  poolAlloc : Nat → Bool
  /-- `av_sample_fmt_is_planar` -/
  fmtPlanar : Int → Bool
  /-- `av_samples_get_buffer_size`: channels, samples, format →
  (total size or error, the linesize it writes) -/
  samplesBufSize : Nat → Nat → Int → Int × Int

/-- Lowest set bit of `w` (`w & ~(w - 1)`), used to increase the working
width's alignment. -/
def lowBit (n : Nat) : Nat := n - (n &&& (n - 1))

/-- The linesize-alignment loop of `update_frame_pool` (decode.c:845-855):
refill linesizes, growing the working width by its lowest set bit until
every plane's linesize is divisible by its stride alignment.  The C loop
has no structural bound, so it is fuelled. -/
def findLinesizes (env : PoolEnv) (sa : List Nat) : Nat → Nat →
    Option (List Int)
  | 0, _ => none
  | fuel + 1, w =>
    let ls := env.fillLinesizes w
    let unaligned := (List.range 4).any
      (fun i => ¬(ls.getD i 0) % ((sa.getD i 1 : Int)) = 0)
    if unaligned then findLinesizes env sa fuel (w + lowBit w)
    else some ls

/-- The plane-size computation of `update_frame_pool` (decode.c:862-864):
`size[i] = data[i+1] - data[i]` while the next plane exists, then the last
used plane gets the remainder of `tmpsize`; unused entries stay 0. -/
def planeSizes (tmpsize : Int) (data : List Nat) : List Int :=
  let d := fun i => data.getD i 0
  if d 1 ≠ 0 then
    if d 2 ≠ 0 then
      if d 3 ≠ 0 then
        [(d 1 : Int) - d 0, (d 2 : Int) - d 1, (d 3 : Int) - d 2,
         tmpsize - ((d 3 : Int) - d 0)]
      else
        [(d 1 : Int) - d 0, (d 2 : Int) - d 1, tmpsize - ((d 2 : Int) - d 0),
         0]
    else [(d 1 : Int) - d 0, tmpsize - ((d 1 : Int) - d 0), 0, 0]
  else [tmpsize, 0, 0, 0]

/-- The per-plane teardown/rebuild loop of `update_frame_pool`
(decode.c:866-876): uninit the plane's pool, record the linesize, and
build a fresh pool of `size[i] + 16` bytes for every used plane; an
allocation failure stops the walk (`goto fail`). -/
def buildVideoPools (env : PoolEnv) (ls size : List Int) :
    List Nat → FramePool → FramePool × Bool
  | [], pool => (pool, true)
  | i :: rest, pool =>
    let pool1 := { pool with
      pools := pool.pools.set i none
      linesize := pool.linesize.set i (ls.getD i 0) }
    if size.getD i 0 ≠ 0 then
      if env.poolAlloc i then
        buildVideoPools env ls size rest
          { pool1 with
            pools := pool1.pools.set i (some (size.getD i 0 + 16)) }
      else (pool1, false)
    else buildVideoPools env ls size rest pool1

/-- The `fail` label of `update_frame_pool` (decode.c:913-919): release
all pools and leave the descriptor in the defined empty state. -/
def poolFailState (pool : FramePool) : FramePool :=
  { pool with
    pools := [none, none, none, none]
    format := -1
    planes := 0
    channels := 0
    samples := 0
    width := 0
    height := 0 }

/-- Model of `update_frame_pool` (decode.c:825-920).  `codecTypeVideo` /
`codecTypeAudio` reflect `avctx->codec_type`; `avctxChannels` is
`avctx->ch_layout.nb_channels` (the audio plane count is taken from the
context while the channel count is taken from the frame, as in the
source). -/
def update_frame_pool (env : PoolEnv) (codecTypeVideo codecTypeAudio : Bool)
    (avctxChannels : Nat) (fuel : Nat) (pool : FramePool) (frame : CFrame) :
    FramePool × COut Int :=
  if codecTypeVideo then
    if pool.format = frame.format ∧ pool.width = frame.width ∧
        pool.height = frame.height then
      (pool, .ret 0)
    else
      let a := env.align2 frame.width frame.height
      let pool1 := { pool with stride_align := a.2.2 }
      match findLinesizes env a.2.2 fuel a.1 with
      | none => (pool1, .spin)
      | some ls =>
        let fp := env.fillPtr a.2.1 ls
        if fp.1 < 0 then (pool1, .ret (-1))
        else
          let size := planeSizes fp.1 fp.2
          match buildVideoPools env ls size [0, 1, 2, 3] pool1 with
          | (p, true) =>
            ({ p with format := frame.format, width := frame.width,
                      height := frame.height }, .ret 0)
          | (p, false) => (poolFailState p, .ret AVERROR_ENOMEM)
  else if codecTypeAudio then
    let ch := frame.nbChannels
    let planes := if env.fmtPlanar frame.format then avctxChannels else 1
    if pool.format = frame.format ∧ pool.planes = planes ∧
        pool.channels = ch ∧ frame.nbSamples = pool.samples then
      (pool, .ret 0)
    else
      let pool1 := { pool with pools := pool.pools.set 0 none }
      let sb := env.samplesBufSize ch frame.nbSamples frame.format
      if sb.1 < 0 then (poolFailState pool1, .ret sb.1)
      else
        let pool2 := { pool1 with linesize := pool1.linesize.set 0 sb.2 }
        if env.poolAlloc 0 then
          ({ pool2 with
              pools := pool2.pools.set 0 (some sb.2)
              format := frame.format
              planes := planes
              channels := ch
              samples := frame.nbSamples }, .ret 0)
        else (poolFailState pool2, .ret AVERROR_ENOMEM)
  else (pool, .abort)

/-- Environment for the pool counterexample: the image-layout helper
(`av_image_fill_pointers`) fails. -/
def c8env : PoolEnv :=
  { align2 := fun _ _ => (16, 16, [1, 1, 1, 1]),
    fillLinesizes := fun _ => [16, 0, 0, 0],
    fillPtr := fun _ _ => (-1, [0, 0, 0, 0]),
    poolAlloc := fun _ => true,
    fmtPlanar := fun _ => false,
    samplesBufSize := fun _ _ _ => (0, 0) }

/-- A pool descriptor holding one live plane pool. -/
def c8pool : FramePool :=
  { format := 5, width := 10, height := 10, stride_align := [1, 1, 1, 1],
    linesize := [16, 0, 0, 0], planes := 0, channels := 0, samples := 0,
    pools := [some 100, none, none, none] }

/-- A frame whose height differs from the cached descriptor. -/
def c8frame : CFrame :=
  { CFrame.unset with format := 5, width := 10, height := 20 }

/-- One result of `av_bsf_receive_packet` as `bsfs_poll` classifies it:
a packet, `AVERROR(EAGAIN)`, `AVERROR_EOF`, or another (negative) error. -/
inductive BsfRecv where
  | pkt (p : Nat)
  | eagain
  | eof
  | err (e : Int)
  deriving Repr, DecidableEq

/-- A bitstream filter's behaviour over filter states of type `σ`:
`receive` yields the next output, `send` pushes a packet (`none` is the
EOF/drain signal) returning a status. -/
structure BsfIface (σ : Type) where
  receive : σ → σ × BsfRecv
  send : σ → Option Nat → σ × Int

/-- Outcome of one `bsfs_poll` call: a packet, a status code
(`AVERROR(EAGAIN)`, `AVERROR_EOF` or an error), or fuel exhaustion of the
unbounded C loop. -/
inductive PollOut where
  | pkt (p : Nat)
  | code (e : Int)
  | spin
  deriving Repr, DecidableEq

/-- The depth-first walk of `bsfs_poll` (decode.c:233-270).  `idx` is the
loop cursor (an `int`: it reaches -1 when every filter reported EAGAIN);
`nb` is `s->nb_bsfs`.  On EAGAIN move one filter earlier; on a packet or
EOF from a non-last filter, feed it to the next-later filter and resume
pulling from there; errors return immediately. -/
def bsfs_poll_go {σ : Type} [Inhabited σ] (F : BsfIface σ) (nb : Nat) :
    Nat → Int → List σ → List σ × PollOut
  | 0, _, chain => (chain, .spin)
  | fuel + 1, idx, chain =>
    if idx < 0 then (chain, .code AVERROR_EAGAIN)
    else
      let i := idx.toNat
      let rr := F.receive (chain.getD i default)
      let chain1 := chain.set i rr.1
      match rr.2 with
      | .eagain => bsfs_poll_go F nb fuel (idx - 1) chain1
      | .err e => (chain1, .code e)
      | .pkt p =>
        if idx = (nb : Int) - 1 then (chain1, .pkt p)
        else
          let sr := F.send (chain1.getD (i + 1) default) (some p)
          let chain2 := chain1.set (i + 1) sr.1
          if sr.2 < 0 then (chain2, .code sr.2)
          else bsfs_poll_go F nb fuel (idx + 1) chain2
      | .eof =>
        if idx = (nb : Int) - 1 then (chain1, .code AVERROR_EOF)
        else
          let sr := F.send (chain1.getD (i + 1) default) none
          let chain2 := chain1.set (i + 1) sr.1
          if sr.2 < 0 then (chain2, .code sr.2)
          else bsfs_poll_go F nb fuel (idx + 1) chain2

/-- Model of `bsfs_poll` (decode.c:233-270): start at the last filter. -/
def bsfs_poll {σ : Type} [Inhabited σ] (F : BsfIface σ) (fuel : Nat)
    (chain : List σ) : List σ × PollOut :=
  bsfs_poll_go F chain.length fuel ((chain.length : Int) - 1) chain

/-- The two concrete filters of the order-preservation scenario: a
pass-through filter and a filter that buffers packets until it holds two,
then emits both in order (flushing any remainder at EOF). -/
inductive TestBsf where
  | pass (q : List Nat) (eofIn : Bool)
  | buf2 (pending : List Nat) (releasing : List Nat) (eofIn : Bool)
  deriving Repr, DecidableEq, Inhabited

def testRecv : TestBsf → TestBsf × BsfRecv
  | .pass [] eofIn => (.pass [] eofIn, if eofIn then .eof else .eagain)
  | .pass (p :: rest) e => (.pass rest e, .pkt p)
  | .buf2 pend (p :: rest) e => (.buf2 pend rest e, .pkt p)
  | .buf2 pend [] e => (.buf2 pend [] e, if e then .eof else .eagain)

def testSend : TestBsf → Option Nat → TestBsf × Int
  | .pass q e, some p => (.pass (q ++ [p]) e, 0)
  | .pass q _, none => (.pass q true, 0)
  | .buf2 pend rel e, some p =>
    if (pend ++ [p]).length = 2 then (.buf2 [] (rel ++ pend ++ [p]) e, 0)
    else (.buf2 (pend ++ [p]) rel e, 0)
  | .buf2 pend rel _, none => (.buf2 [] (rel ++ pend) true, 0)

def testIface : BsfIface TestBsf := ⟨testRecv, testSend⟩

/-- Pull the whole chain dry: call `bsfs_poll` repeatedly (at most `n`
calls, 16 walk steps each), collecting emitted packets; the Bool records
whether the chain finished with `AVERROR_EOF`. -/
def drainChain : Nat → List TestBsf → List Nat × Bool
  | 0, _ => ([], false)
  | n + 1, chain =>
    match bsfs_poll testIface 16 chain with
    | (chain1, .pkt p) =>
      let r := drainChain n chain1
      (p :: r.1, r.2)
    | (_, .code e) => ([], e = AVERROR_EOF)
    | (_, .spin) => ([], false)

/-- A filter that always reports "no data yet", for the all-EAGAIN walk
scenario. -/
def eagainIface : BsfIface Unit :=
  { receive := fun s => (s, .eagain), send := fun s _ => (s, 0) }

/-!
## Theorems
-/

theorem simple_fixups_buf0 (cfg : DecCfg) (st : DecSt) (f : CFrame) :
    (simple_fixups cfg st f).buf0 = f.buf0 := by
  unfold simple_fixups
  by_cases h1 : cfg.capSetsPktDts <;> by_cases h2 : cfg.capDr1 <;> simp [h1, h2]

/-- C6 (amended): for a conventional video frame with valid margins and
strict alignment required, `apply_cropping` clears the low
`min_log2_align` bits of `crop_left` — i.e. rounds it down to the largest
multiple of `2^min_log2_align` not exceeding the original, where
`min_log2_align` (< 5) is the minimum trailing-zero count of the plane
offsets computed from the ORIGINAL margins — recomputes the offsets,
advances each plane pointer by its offset, shrinks width/height by the
(adjusted-left + right) and (top + bottom) margins, and zeroes all
margins.  The resulting offsets need not reach 5 bits of alignment, unlike
what the claim states. -/
theorem apply_cropping_aligned_characterization
    (f : CFrame) (desc : PixFmtDesc) (offs : List Nat)
    (hinv : cropInvalid f = false)
    (hdesc : f.fmtDesc = some desc)
    (hbs : desc.bitstreamOrHw = false)
    (hoffs : calc_cropping_offsets f f.crop_left desc = some offs) :
    (5 ≤ minLog2Align offs →
      apply_cropping true false f =
        { frame := croppedResult f f.crop_left offs, ret := .ret 0, warned := false }) ∧
    (minLog2Align offs < 5 →
      ∀ offs', calc_cropping_offsets f
          (f.crop_left - f.crop_left % 2 ^ minLog2Align offs) desc = some offs' →
        apply_cropping true false f =
          { frame := croppedResult f
              (f.crop_left - f.crop_left % 2 ^ minLog2Align offs) offs',
            ret := .ret 0, warned := false } ∧
        IsGreatest {k | k ≤ f.crop_left ∧ 2 ^ minLog2Align offs ∣ k}
          (f.crop_left - f.crop_left % 2 ^ minLog2Align offs)) := by
  constructor
  · intro hge
    simp [apply_cropping, hinv, hdesc, hbs, hoffs, adjustAlign,
          Nat.not_lt.mpr hge, croppedResult]
  · intro hlt offs' hoffs'
    refine ⟨?_, ?_, ?_⟩
    · simp [apply_cropping, hinv, hdesc, hbs, hoffs, adjustAlign, hlt, hoffs',
            croppedResult]
    · refine ⟨Nat.sub_le _ _, ⟨f.crop_left / 2 ^ minLog2Align offs, ?_⟩⟩
      have := Nat.div_add_mod f.crop_left (2 ^ minLog2Align offs)
      omega
    · rintro k ⟨hk1, t, rfl⟩
      have hpos : 0 < 2 ^ minLog2Align offs := Nat.pos_pow_of_pos _ (by omega)
      have ht : t ≤ f.crop_left / 2 ^ minLog2Align offs := by
        rw [Nat.le_div_iff_mul_le hpos, Nat.mul_comm]
        exact hk1
      have := Nat.div_add_mod f.crop_left (2 ^ minLog2Align offs)
      have h2 : 2 ^ minLog2Align offs * t ≤
          2 ^ minLog2Align offs * (f.crop_left / 2 ^ minLog2Align offs) :=
        Nat.mul_le_mul_left _ ht
      omega

/-- Counterexample for C6 as stated: on a one-plane frame with
crop_left = 2 (offset alignment 1 bit), the largest crop_left that keeps
alignment at 5 bits or more is 0, yet the code advances the plane pointer
by 2, leaving a sub-5-bit-aligned pointer — so `apply_cropping` does not
reduce the margin to the spec's value. -/
theorem apply_cropping_align_spec_counterexample :
    specAlignedCropLeft c6Frame onePlaneDesc = some 0 ∧
    calc_cropping_offsets c6Frame 0 onePlaneDesc = some [0] ∧
    (apply_cropping true false c6Frame).frame.data = [34] ∧
    [(34 : Nat)] ≠ [32 + 0] ∧
    minLog2Align [34 - 32] < 5 := by
  refine ⟨?_, ?_, ?_, ?_, ?_⟩ <;> decide

/-- Witness for the amended C6 on a concrete frame. -/
theorem apply_cropping_aligned_characterization_witness :
    cropInvalid c6Frame = false ∧
    c6Frame.fmtDesc = some onePlaneDesc ∧
    onePlaneDesc.bitstreamOrHw = false ∧
    calc_cropping_offsets c6Frame c6Frame.crop_left onePlaneDesc = some [2] ∧
    minLog2Align [2] < 5 ∧
    calc_cropping_offsets c6Frame
      (c6Frame.crop_left - c6Frame.crop_left % 2 ^ minLog2Align [2]) onePlaneDesc =
        some [2] ∧
    (apply_cropping true false c6Frame =
      { frame := croppedResult c6Frame
          (c6Frame.crop_left - c6Frame.crop_left % 2 ^ minLog2Align [2]) [2],
        ret := .ret 0, warned := false } ∧
     IsGreatest {k | k ≤ c6Frame.crop_left ∧ 2 ^ minLog2Align [2] ∣ k}
       (c6Frame.crop_left - c6Frame.crop_left % 2 ^ minLog2Align [2])) :=
  ⟨by decide, by decide, by decide, by decide, by decide, by decide,
   (apply_cropping_aligned_characterization c6Frame onePlaneDesc [2]
      (by decide) (by decide) (by decide) (by decide)).2 (by decide) [2]
      (by decide)⟩

/-- C5: `apply_cropping` treats invalid decoder-reported margins (sum
overflowing `INT_MAX` or reaching the frame width/height) as a non-fatal
no-op: all four margins are zeroed, a warning is logged, and the frame is
still delivered with success. -/
theorem apply_cropping_invalid_margins_noop (a u : Bool) (f : CFrame)
    (h : cropInvalid f = true) :
    apply_cropping a u f =
      { frame := zeroCrops f, ret := .ret 0, warned := true } := by
  simp [apply_cropping, h]

/-- Witness for C5 at the spec's concrete example: crop_left = 10,
crop_right = 10 on a width-16 frame gets all margins zeroed. -/
theorem apply_cropping_invalid_margins_noop_witness :
    cropInvalid c5Frame = true ∧
    apply_cropping true false c5Frame =
      { frame := zeroCrops c5Frame, ret := .ret 0, warned := true } ∧
    (zeroCrops c5Frame).crop_left = 0 ∧ (zeroCrops c5Frame).crop_right = 0 ∧
    (zeroCrops c5Frame).crop_top = 0 ∧ (zeroCrops c5Frame).crop_bottom = 0 :=
  ⟨by decide, apply_cropping_invalid_margins_noop true false c5Frame (by decide),
   by decide, by decide, by decide, by decide⟩

/-- C2: draining is an idempotent terminal state until flush.  Once
`draining` is set, `ff_decode_get_packet` returns `AVERROR_EOF` with the
state unchanged, for every chain environment (so the chain is not polled
again); the first EOF from the chain sets `draining`; and once the backend
reported exhaustion (`draining_done`, in a draining instance), every
retrieval attempt returns `AVERROR_EOF` without touching state or frame. -/
theorem draining_is_terminal (env : DecEnv) (cfg : DecCfg) :
    (∀ st pkt, st.draining = true →
      ff_decode_get_packet env cfg st pkt = (st, pkt, AVERROR_EOF)) ∧
    (∀ st pkt, st.draining = false →
      env.poll st.pollIdx = .code AVERROR_EOF →
      ff_decode_get_packet env cfg st pkt =
        ({ st with pollIdx := st.pollIdx + 1, draining := true }, pkt,
         AVERROR_EOF)) ∧
    (∀ fuel st frame, st.draining = true → st.drainingDone = true →
      cfg.hasReceiveFrame = false → frame.buf0 = false →
      decode_receive_frame_internal env cfg (fuel + 1) st frame =
        (st, frame, .ret AVERROR_EOF)) := by
  refine ⟨?_, ?_, ?_⟩
  · intro st pkt h
    simp [ff_decode_get_packet, h]
  · intro st pkt h hp
    have he : ¬ ((0:Int) ≤ AVERROR_EOF) := by decide
    simp [ff_decode_get_packet, h, hp, he]
  · intro fuel st frame hdr hdd hrf hb
    have he : (AVERROR_EOF:Int) < 0 := by decide
    cases st
    simp_all [decode_receive_frame_internal, decode_simple_receive_frame,
              decode_simple_internal, decode_simple_body]

/-- C4: `avcodec_flush_buffers` fully resets the draining state: both
draining flags are cleared, the buffered input packet, buffered output
frame, legacy staging frame and the simple-decode leftover packet are
unset, and the filter chain is torn down (`nb_bsfs` = 0).  The flushed
state is a function of only the fields flush preserves, and flushing is
idempotent — so a subsequent submit(EOF)/retrieve sequence behaves as on a
fresh instance with the same residual context. -/
theorem flush_resets_draining_state (cfg : DecCfg) (st : DecSt) :
    (avcodec_flush_buffers cfg st).draining = false ∧
    (avcodec_flush_buffers cfg st).drainingDone = false ∧
    (avcodec_flush_buffers cfg st).bufferPkt = DrvPkt.null ∧
    (avcodec_flush_buffers cfg st).bufferPktValid = false ∧
    (avcodec_flush_buffers cfg st).bufferFrame = CFrame.unset ∧
    (avcodec_flush_buffers cfg st).compatFrame = CFrame.unset ∧
    (avcodec_flush_buffers cfg st).inPkt = DrvPkt.null ∧
    (avcodec_flush_buffers cfg st).nbBsfs = 0 ∧
    (∀ st', flushResidue st = flushResidue st' →
      avcodec_flush_buffers cfg st = avcodec_flush_buffers cfg st') ∧
    avcodec_flush_buffers cfg (avcodec_flush_buffers cfg st) =
      avcodec_flush_buffers cfg st := by
  unfold avcodec_flush_buffers ff_decode_bsfs_uninit_model flushResidue
  by_cases hr : cfg.refcountedFrames <;>
    simp [hr] <;>
    (intro st' h1 h2 h3 h4 h5 h6 h7 h8 h9 h10 h11 h12 h13) <;>
    simp_all

/-- C1: every successful return of `decode_simple_receive_frame` carries a
frame whose first buffer reference is set, and when the simple decode step's
backend reports a produced frame, the step either delivers a frame with a
backing buffer or aborts on the internal invariant violation
(`av_assert0(frame->buf[0])`) — it never returns a bufferless frame. -/
theorem decode_simple_success_frame_has_buffer (env : DecEnv) (cfg : DecCfg) :
    (∀ fuel st frame st' f',
      decode_simple_receive_frame env cfg fuel st frame = (st', f', .ret 0) →
      f'.buf0 = true) ∧
    (∀ st frame, st.drainingDone = false →
      (st.inPkt.hasData = true ∨ cfg.capDelay = true ∨ cfg.threadFrame = true) →
      (env.decode st.decIdx).gotFrame = true →
      (((env.decode st.decIdx).frame.buf0 = false →
        (decode_simple_body env cfg st frame).2.2 = .abort) ∧
       ((env.decode st.decIdx).frame.buf0 = true →
        (decode_simple_body env cfg st frame).2.1.buf0 = true))) := by
  constructor
  · intro fuel
    induction fuel with
    | zero =>
      intro st frame st' f' h
      simp [decode_simple_receive_frame] at h
    | succ n ih =>
      intro st frame st' f' h
      by_cases hb : frame.buf0
      · rw [decode_simple_receive_frame] at h
        simp [hb] at h
        rw [← h.2]
        exact hb
      · rw [decode_simple_receive_frame] at h
        simp [hb] at h
        rcases hdsi : decode_simple_internal env cfg st frame with ⟨st1, f1, o⟩
        rw [hdsi] at h
        cases o with
        | ret r =>
          by_cases hr : r < 0
          · simp [hr] at h
            omega
          · simp [hr] at h
            exact ih st1 f1 st' f' h
        | abort => simp at h
        | undef => simp at h
        | spin => simp at h
  · intro st frame hdd hreach hgot
    have hcond :
        ¬(st.inPkt.hasData = false ∧ cfg.capDelay = false ∧
          cfg.threadFrame = false) := by
      rcases hreach with h | h | h <;> simp [h]
    constructor
    · intro hnb
      by_cases ht : cfg.threadFrame
      · simp [decode_simple_body, hdd, hgot, hnb, ht]
      · have hcd : ¬(st.inPkt.hasData = false ∧ cfg.capDelay = false) := by
          rcases hreach with h | h | h
          · simp [h]
          · simp [h]
          · exact absurd h ht
        simp [decode_simple_body, hdd, hgot, hnb, ht, hcd, simple_fixups_buf0]
    · intro hb
      by_cases ht : cfg.threadFrame
      · simp [decode_simple_body, hdd, hgot, hb, ht]
      · have hcd : ¬(st.inPkt.hasData = false ∧ cfg.capDelay = false) := by
          rcases hreach with h | h | h
          · simp [h]
          · simp [h]
          · exact absurd h ht
        simp [decode_simple_body, hdd, hgot, hb, ht, hcd, simple_fixups_buf0]

/-- Witness for C1: a concrete one-packet decode producing a buffered
frame. -/
theorem decode_simple_success_frame_has_buffer_witness :
    tSt.drainingDone = false ∧
    (tSt.inPkt.hasData = true ∨ tCfg.capDelay = true ∨
      tCfg.threadFrame = true) ∧
    (tEnv.decode tSt.decIdx).gotFrame = true ∧
    (tEnv.decode tSt.decIdx).frame.buf0 = true ∧
    (decode_simple_receive_frame tEnv tCfg 2 tSt CFrame.unset).2.2 =
      .ret 0 ∧
    (decode_simple_receive_frame tEnv tCfg 2 tSt CFrame.unset).2.1.buf0 =
      true ∧
    (decode_simple_body tEnv tCfg tSt CFrame.unset).2.1.buf0 = true :=
  ⟨by decide, Or.inl (by decide), by decide, by decide, by decide,
   (decode_simple_success_frame_has_buffer tEnv tCfg).1 2 tSt CFrame.unset
     (decode_simple_receive_frame tEnv tCfg 2 tSt CFrame.unset).1
     (decode_simple_receive_frame tEnv tCfg 2 tSt CFrame.unset).2.1
     (by decide),
   ((decode_simple_success_frame_has_buffer tEnv tCfg).2 tSt CFrame.unset
     (by decide) (Or.inl (by decide)) (by decide)).2 (by decide)⟩

/-- Witness for C2 at concrete draining states. -/
theorem draining_is_terminal_witness :
    ({ tSt with draining := true } : DecSt).draining = true ∧
    ff_decode_get_packet tEnv tCfg { tSt with draining := true } tPkt =
      ({ tSt with draining := true }, tPkt, AVERROR_EOF) ∧
    ({ tEnv with poll := fun _ => .code AVERROR_EOF } : DecEnv).poll
        tSt.pollIdx = .code AVERROR_EOF ∧
    ff_decode_get_packet { tEnv with poll := fun _ => .code AVERROR_EOF }
        tCfg tSt tPkt =
      ({ tSt with pollIdx := tSt.pollIdx + 1, draining := true }, tPkt,
       AVERROR_EOF) ∧
    decode_receive_frame_internal tEnv tCfg 1
        { tSt with draining := true, drainingDone := true } CFrame.unset =
      ({ tSt with draining := true, drainingDone := true }, CFrame.unset,
       .ret AVERROR_EOF) :=
  ⟨by decide,
   (draining_is_terminal tEnv tCfg).1 { tSt with draining := true } tPkt
     (by decide),
   by decide,
   (draining_is_terminal { tEnv with poll := fun _ => .code AVERROR_EOF }
       tCfg).2.1 tSt tPkt (by decide) (by decide),
   (draining_is_terminal tEnv tCfg).2.2 0
     { tSt with draining := true, drainingDone := true } CFrame.unset
     (by decide) (by decide) (by decide) (by decide)⟩

/-- Witness for C4 on a concrete draining state. -/
theorem flush_resets_draining_state_witness :
    (avcodec_flush_buffers tCfg { tSt with draining := true }).draining =
      false ∧
    (avcodec_flush_buffers tCfg { tSt with draining := true }).nbBsfs = 0 ∧
    avcodec_flush_buffers tCfg { tSt with draining := true } =
      avcodec_flush_buffers tCfg { tSt with drainingDone := true } :=
  ⟨(flush_resets_draining_state tCfg { tSt with draining := true }).1,
   (flush_resets_draining_state tCfg
     { tSt with draining := true }).2.2.2.2.2.2.2.1,
   (flush_resets_draining_state tCfg
      { tSt with draining := true }).2.2.2.2.2.2.2.2.1
     { tSt with drainingDone := true } rfl⟩

/-- C3: `avcodec_send_packet` returns `AVERROR(EINVAL)` when the instance
is not open or not a decoder, `AVERROR_EOF` when already draining, and once
the packet is queued into the filter chain it returns success, swallowing
`AVERROR(EAGAIN)` and `AVERROR_EOF` from the opportunistic decode attempt
while propagating its other negative results. -/
theorem send_packet_status_contract (env : DecEnv) (cfg : DecCfg) :
    (∀ fuel st avpkt, ¬(cfg.isOpen = true ∧ cfg.isDecoder = true) →
      avcodec_send_packet env cfg fuel st avpkt =
        (st, .ret AVERROR_EINVAL)) ∧
    (∀ fuel st avpkt, cfg.isOpen = true → cfg.isDecoder = true →
      st.draining = true →
      avcodec_send_packet env cfg fuel st avpkt = (st, .ret AVERROR_EOF)) ∧
    (∀ fuel st avpkt, cfg.isOpen = true → cfg.isDecoder = true →
      st.draining = false →
      0 ≤ (bsfs_init_model env st).2 →
      0 ≤ (queuePacket env (bsfs_init_model env st).1 avpkt).2 →
      (((queuePacket env (bsfs_init_model env st).1
            avpkt).1.bufferFrame.buf0 = true →
        avcodec_send_packet env cfg fuel st avpkt =
          ((queuePacket env (bsfs_init_model env st).1 avpkt).1, .ret 0)) ∧
       (∀ s' f' r,
         (queuePacket env (bsfs_init_model env st).1
             avpkt).1.bufferFrame.buf0 = false →
         decode_receive_frame_internal env cfg fuel
             (queuePacket env (bsfs_init_model env st).1 avpkt).1
             (queuePacket env (bsfs_init_model env st).1
               avpkt).1.bufferFrame =
           (s', f', .ret r) →
         ((r = AVERROR_EAGAIN ∨ r = AVERROR_EOF ∨ 0 ≤ r →
            avcodec_send_packet env cfg fuel st avpkt =
              ({ s' with bufferFrame := f' }, .ret 0)) ∧
          (r < 0 → r ≠ AVERROR_EAGAIN → r ≠ AVERROR_EOF →
            avcodec_send_packet env cfg fuel st avpkt =
              ({ s' with bufferFrame := f' }, .ret r)))))) := by
  refine ⟨?_, ?_, ?_⟩
  · intro fuel st avpkt h
    simp [avcodec_send_packet, h]
  · intro fuel st avpkt ho hd hdr
    simp [avcodec_send_packet, ho, hd, hdr]
  · intro fuel st avpkt ho hd hdr hinit hq
    have hinit' : ¬((bsfs_init_model env st).2 < 0) := by omega
    have hq' : ¬((queuePacket env (bsfs_init_model env st).1 avpkt).2 < 0) :=
      by omega
    constructor
    · intro hbuf
      simp [avcodec_send_packet, ho, hd, hdr, hinit', hq', hbuf]
    · intro s' f' r hbuf heq
      constructor
      · intro hsw
        have hr : ¬(r < 0 ∧ r ≠ AVERROR_EAGAIN ∧ r ≠ AVERROR_EOF) := by
          rcases hsw with h | h | h
          · simp [h]
          · simp [h]
          · omega
        simp [avcodec_send_packet, ho, hd, hdr, hinit', hq', hbuf, heq, hr]
      · intro h1 h2 h3
        simp [avcodec_send_packet, ho, hd, hdr, hinit', hq', hbuf, heq,
              h1, h2, h3]

/-- Witness for C3: misuse, draining, and swallowed-success scenarios. -/
theorem send_packet_status_contract_witness :
    avcodec_send_packet tEnv { tCfg with isOpen := false } 2 tSt
      (some tPkt) = (tSt, .ret AVERROR_EINVAL) ∧
    avcodec_send_packet tEnv tCfg 2 { tSt with draining := true }
      (some tPkt) = ({ tSt with draining := true }, .ret AVERROR_EOF) ∧
    c3r.2.2 = .ret 0 ∧
    avcodec_send_packet tEnv tCfg 2 tSt (some tPkt) =
      ({ c3r.1 with bufferFrame := c3r.2.1 }, .ret 0) :=
  ⟨(send_packet_status_contract tEnv { tCfg with isOpen := false }).1 2 tSt
     (some tPkt) (by decide),
   (send_packet_status_contract tEnv tCfg).2.1 2
     { tSt with draining := true } (some tPkt) rfl rfl (by decide),
   by decide,
   (((send_packet_status_contract tEnv tCfg).2.2 2 tSt (some tPkt) rfl rfl
       (by decide) (by decide) (by decide)).2 c3r.1 c3r.2.1 0 (by decide)
       (by decide)).1 (Or.inr (Or.inr (by decide)))⟩

theorem decode_simple_body_error_frame (env : DecEnv) (cfg : DecCfg)
    (hdec : ∀ n, (env.decode n).ret < 0 → (env.decode n).gotFrame = false) :
    ∀ st f st' f' r,
      decode_simple_body env cfg st f = (st', f', .ret r) →
      (r < 0 → f' = f ∨ f' = CFrame.unset) ∧
      (0 ≤ r → f' = CFrame.unset ∨ f'.buf0 = true) := by
  intro st f st' f' r h
  by_cases hdd : st.drainingDone = true
  · simp [decode_simple_body, hdd] at h
    obtain ⟨h1, h2, h3⟩ := h
    exact ⟨fun _ => Or.inl h2.symm, fun hge => absurd (h3 ▸ hge) (by decide)⟩
  · simp only [decode_simple_body] at h
    rw [if_neg hdd] at h
    by_cases hc : ¬st.inPkt.hasData = true ∧
        ¬(cfg.capDelay = true ∨ cfg.threadFrame = true)
    · rw [if_pos hc] at h
      simp at h
      obtain ⟨h1, h2, h3⟩ := h
      exact ⟨fun _ => Or.inl h2.symm, fun hge => absurd (h3 ▸ hge) (by decide)⟩
    · rw [if_neg hc] at h
      by_cases hg : (env.decode st.decIdx).gotFrame = true
      · have hret : 0 ≤ (env.decode st.decIdx).ret := by
          by_contra hlt
          push_neg at hlt
          have hfalse := hdec st.decIdx hlt
          rw [hg] at hfalse
          simp at hfalse
        have hr1 : 0 ≤ (if 0 ≤ (env.decode st.decIdx).ret ∧
            cfg.isVideo = true then ((st.inPkt.size : Int))
          else (env.decode st.decIdx).ret) := by
          split
          · exact Int.ofNat_nonneg _
          · exact hret
        by_cases hb : (env.decode st.decIdx).frame.buf0 = true
        · by_cases ht : cfg.threadFrame = true <;>
          · simp [hg, hb, ht, simple_fixups_buf0] at h
            obtain ⟨h1, h2, h3⟩ := h
            refine ⟨fun hr => ?_, fun _ => Or.inr ?_⟩
            · exfalso
              rw [← h3] at hr
              revert hr
              split
              · intro hx
                omega
              · intro hx
                omega
            · rw [← h2]
              simp [simple_fixups_buf0, hb, ht]
        · by_cases ht : cfg.threadFrame = true <;>
            simp [hg, hb, ht, simple_fixups_buf0] at h
      · simp [hg] at h
        exact ⟨fun _ => Or.inr h.2.1.symm, fun _ => Or.inl h.2.1.symm⟩

theorem decode_simple_internal_error_frame (env : DecEnv) (cfg : DecCfg)
    (hdec : ∀ n, (env.decode n).ret < 0 → (env.decode n).gotFrame = false) :
    ∀ st f st' f' r,
      decode_simple_internal env cfg st f = (st', f', .ret r) →
      (r < 0 → f' = f ∨ f' = CFrame.unset) ∧
      (0 ≤ r → f' = CFrame.unset ∨ f'.buf0 = true) := by
  intro st f st' f' r h
  rw [decode_simple_internal] at h
  split at h
  case isTrue hp =>
    rcases hpull : ff_decode_get_packet env cfg
        { st with inPkt := DrvPkt.null } DrvPkt.null with ⟨s1, p1, r1⟩
    rw [hpull, decode_simple_after_pull] at h
    by_cases hE : r1 < 0 ∧ r1 ≠ AVERROR_EOF
    · rw [if_pos hE] at h
      simp at h
      obtain ⟨h1, h2, h3⟩ := h
      have hE' := hE
      exact ⟨fun _ => Or.inl h2.symm, fun hge => by omega⟩
    · rw [if_neg hE] at h
      exact decode_simple_body_error_frame env cfg hdec _ f st' f' r h
  case isFalse hp =>
    exact decode_simple_body_error_frame env cfg hdec st f st' f' r h

theorem decode_simple_receive_frame_error_frame (env : DecEnv) (cfg : DecCfg)
    (hdec : ∀ n, (env.decode n).ret < 0 → (env.decode n).gotFrame = false) :
    ∀ fuel st f, f.buf0 = false →
      ∀ st' f' r,
        decode_simple_receive_frame env cfg fuel st f = (st', f', .ret r) →
        r < 0 → f' = f ∨ f' = CFrame.unset := by
  intro fuel
  induction fuel with
  | zero =>
    intro st f hb st' f' r h
    simp [decode_simple_receive_frame] at h
  | succ n ih =>
    intro st f hb st' f' r h hr
    rw [decode_simple_receive_frame] at h
    simp [hb] at h
    rcases hdsi : decode_simple_internal env cfg st f with ⟨s1, f1, o⟩
    rw [hdsi] at h
    cases o with
    | ret r1 =>
      by_cases hneg : r1 < 0
      · simp [hneg] at h
        obtain ⟨h1, h2, h3⟩ := h
        have hres :=
          (decode_simple_internal_error_frame env cfg hdec st f s1 f1 r1
            hdsi).1 hneg
        rw [← h2]
        exact hres
      · simp [hneg] at h
        have hres :=
          (decode_simple_internal_error_frame env cfg hdec st f s1 f1 r1
            hdsi).2 (by omega)
        rcases hres with hu | hbuf
        · rcases ih s1 f1 (by rw [hu]; rfl) st' f' r h hr with h2 | h2
          · rw [h2, hu]
            exact Or.inr rfl
          · exact Or.inr h2
        · cases n with
          | zero => simp [decode_simple_receive_frame] at h
          | succ m =>
            rw [decode_simple_receive_frame] at h
            simp [hbuf] at h
            omega
    | abort => simp at h
    | undef => simp at h
    | spin => simp at h

theorem decode_receive_frame_internal_error_frame (env : DecEnv)
    (cfg : DecCfg)
    (hdec : ∀ n, (env.decode n).ret < 0 → (env.decode n).gotFrame = false)
    (hrecv : ∀ n, (env.recvFrame n).ret < 0 →
      (env.recvFrame n).frame = CFrame.unset) :
    ∀ fuel st st' f' r,
      decode_receive_frame_internal env cfg fuel st CFrame.unset =
        (st', f', .ret r) →
      r < 0 → f' = CFrame.unset := by
  intro fuel st st' f' r h hr
  rw [decode_receive_frame_internal] at h
  rw [if_neg (by simp [CFrame.unset])] at h
  by_cases hrf : cfg.hasReceiveFrame = true
  · simp only [hrf, if_true] at h
    by_cases he : (env.recvFrame st.recvIdx).ret = AVERROR_EOF
    · simp [he] at h
      rw [← h.2.1]
      exact hrecv st.recvIdx (by rw [he]; decide)
    · simp [he] at h
      obtain ⟨h1, h2, h3⟩ := h
      rw [← h2]
      exact hrecv st.recvIdx (by omega)
  · simp only [hrf] at h
    simp only [Bool.false_eq_true, if_false] at h
    rcases hds : decode_simple_receive_frame env cfg fuel st CFrame.unset
      with ⟨s1, f1, o⟩
    rw [hds] at h
    cases o with
    | ret e =>
      have hfr :=
        decode_simple_receive_frame_error_frame env cfg hdec fuel st
          CFrame.unset rfl s1 f1 e hds
      by_cases he : e = AVERROR_EOF
      · simp [he] at h
        rw [← h.2.1]
        rcases hfr (by rw [he]; decide) with h2 | h2 <;> exact h2
      · simp [he] at h
        obtain ⟨h1, h2, h3⟩ := h
        rw [← h2]
        rcases hfr (by omega) with h2 | h2 <;> exact h2
    | abort => simp at h
    | undef => simp at h
    | spin => simp at h

theorem receive_frame_finish_error_frame (cfg : DecCfg) :
    ∀ st f st' f' r, receive_frame_finish cfg st f = (st', f', .ret r) →
      r < 0 → f' = CFrame.unset := by
  intro st f st' f' r h hr
  rw [receive_frame_finish] at h
  by_cases hv : cfg.isVideo = true
  · simp [hv] at h
    rcases hco : (apply_cropping cfg.applyCropping cfg.flagUnaligned f).ret
      with e | _ | _ | _ <;> rw [hco] at h <;> simp at h
    by_cases he : e < 0
    · simp [he] at h
      exact h.2.1.symm
    · simp [he] at h
      omega
  · simp [hv] at h
    omega

/-- C10: `avcodec_receive_frame` unrefs the caller's frame at entry (the
model therefore has no frame input at all), and — for backends that do not
report a frame together with an error — every error return, including the
closed/non-decoder misuse case and a cropping-normalization failure,
leaves the caller's frame fully unset. -/
theorem receive_frame_error_leaves_frame_unset (env : DecEnv) (cfg : DecCfg)
    (hdec : ∀ n, (env.decode n).ret < 0 → (env.decode n).gotFrame = false)
    (hrecv : ∀ n, (env.recvFrame n).ret < 0 →
      (env.recvFrame n).frame = CFrame.unset) :
    ∀ fuel st st' f' r,
      avcodec_receive_frame env cfg fuel st = (st', f', .ret r) →
      r < 0 → f' = CFrame.unset := by
  intro fuel st st' f' r h hr
  rw [avcodec_receive_frame] at h
  by_cases hmis : ¬(cfg.isOpen = true ∧ cfg.isDecoder = true)
  · rw [if_pos hmis] at h
    simp at h
    exact h.2.1.symm
  · rw [if_neg hmis] at h
    rcases hri : bsfs_init_model env st with ⟨s1, i1⟩
    rw [hri] at h
    by_cases hie : i1 < 0
    · simp [hie] at h
      exact h.2.1.symm
    · simp only [hie, if_false] at h
      by_cases hbf : s1.bufferFrame.buf0 = true
      · simp only [hbf, if_true] at h
        exact receive_frame_finish_error_frame cfg _ _ st' f' r h hr
      · simp only [hbf] at h
        simp only [Bool.false_eq_true, if_false] at h
        rcases hd : decode_receive_frame_internal env cfg fuel s1
          CFrame.unset with ⟨s2, f2, o⟩
        rw [hd] at h
        cases o with
        | ret e =>
          by_cases hel : e < 0
          · simp [hel] at h
            obtain ⟨h1, h2, h3⟩ := h
            rw [← h2]
            exact decode_receive_frame_internal_error_frame env cfg hdec
              hrecv fuel s1 s2 f2 e hd (by omega)
          · simp [hel] at h
            exact receive_frame_finish_error_frame cfg s2 f2 st' f' r h hr
        | abort => simp at h
        | undef => simp at h
        | spin => simp at h

/-- Witness for C10 at the misuse path of a concrete closed instance. -/
theorem receive_frame_error_leaves_frame_unset_witness :
    avcodec_receive_frame tEnv { tCfg with isOpen := false } 2 tSt =
      (tSt, CFrame.unset, .ret AVERROR_EINVAL) ∧
    AVERROR_EINVAL < 0 ∧
    (avcodec_receive_frame tEnv { tCfg with isOpen := false } 2 tSt).2.1 =
      CFrame.unset :=
  ⟨by decide, by decide,
   receive_frame_error_leaves_frame_unset tEnv { tCfg with isOpen := false }
     (fun n hn => by simp [tEnv] at hn)
     (fun n hn => rfl) 2 tSt
     (avcodec_receive_frame tEnv { tCfg with isOpen := false } 2 tSt).1
     (avcodec_receive_frame tEnv { tCfg with isOpen := false } 2 tSt).2.1
     AVERROR_EINVAL (by decide) (by decide)⟩

/-- C7 (amended): a 12-byte dimensions parameter-change payload (or longer
— trailing bytes are ignored) sets the context width and height to the
little-endian values; the payload truncated to 8 bytes is rejected as
`AVERROR_INVALIDDATA` only when strict error recognition (`AV_EF_EXPLODE`)
is set — otherwise the error is logged and swallowed, the call returns
success and the dimensions are unchanged. -/
theorem apply_param_change_dimensions (cfg : DecCfg) (st : DecSt)
    (hcap : cfg.capParamChange = true) :
    (∀ pkt d, pkt.paramChange = some d → 12 ≤ d.length →
      le32 (d.take 4) = 8 →
      apply_param_change cfg st pkt =
        ({ st with
            width := int32OfUInt32 (le32 ((d.drop 4).take 4)),
            height := int32OfUInt32 (le32 (((d.drop 4).drop 4).take 4)) },
         0)) ∧
    (∀ pkt d, pkt.paramChange = some d → d.length = 8 →
      le32 (d.take 4) = 8 →
      apply_param_change cfg st pkt =
        (if cfg.errExplode = true then (st, AVERROR_INVALIDDATA)
         else (st, 0))) := by
  have ha1 : (8 : Nat) &&& 1 = 0 := by decide
  have ha2 : (8 : Nat) &&& 2 = 0 := by decide
  have ha4 : (8 : Nat) &&& 4 = 0 := by decide
  have ha8 : (8 : Nat) &&& 8 = 8 := by decide
  constructor
  · intro pkt d hpc hlen hfl
    have h4 : ¬d.length < 4 := by omega
    have h8 : ¬(d.length - 4 < 8) := by omega
    simp [apply_param_change, hpc, hcap, hfl, h4, h8, ha1, ha2, ha4, ha8,
          ff_set_dimensions]
  · intro pkt d hpc hlen hfl
    have h4 : ¬d.length < 4 := by omega
    have h8 : d.length - 4 < 8 := by omega
    simp [apply_param_change, hpc, hcap, hfl, h4, h8, ha1, ha2, ha4, ha8,
          paramChangeFail]

/-- Counterexample for C7 as stated: on a context without strict error
recognition, the 8-byte truncated dimensions payload yields success (0),
not `AVERROR_INVALIDDATA`. -/
theorem apply_param_change_truncated_counterexample :
    apply_param_change tCfg tSt
      { tPkt with paramChange := some [8, 0, 0, 0, 1, 0, 0, 0] } =
      (tSt, 0) ∧
    (0 : Int) ≠ AVERROR_INVALIDDATA ∧ tCfg.capParamChange = true :=
  ⟨by decide, by decide, by decide⟩

/-- Witness for the amended C7: the 12-byte payload sets width 16 and
height 9; the truncated payload is rejected under `AV_EF_EXPLODE`. -/
theorem apply_param_change_dimensions_witness :
    tCfg.capParamChange = true ∧
    apply_param_change tCfg tSt
      { tPkt with
        paramChange := some [8, 0, 0, 0, 16, 0, 0, 0, 9, 0, 0, 0] } =
      ({ tSt with width := 16, height := 9 }, 0) ∧
    apply_param_change { tCfg with errExplode := true } tSt
      { tPkt with paramChange := some [8, 0, 0, 0, 16, 0, 0, 0] } =
      (tSt, AVERROR_INVALIDDATA) := by
  refine ⟨rfl, ?_, ?_⟩
  · have h := (apply_param_change_dimensions tCfg tSt rfl).1
      { tPkt with
        paramChange := some [8, 0, 0, 0, 16, 0, 0, 0, 9, 0, 0, 0] }
      [8, 0, 0, 0, 16, 0, 0, 0, 9, 0, 0, 0] rfl (by decide) (by decide)
    rw [h]
    decide
  · have h := (apply_param_change_dimensions { tCfg with errExplode := true }
      tSt rfl).2
      { tPkt with paramChange := some [8, 0, 0, 0, 16, 0, 0, 0] }
      [8, 0, 0, 0, 16, 0, 0, 0] rfl (by decide) (by decide)
    rw [h]
    decide

theorem buildVideoPools_success (env : PoolEnv) (ls size : List Int)
    (pool : FramePool) (a b c d : Option Int) (w0 w1 w2 w3 : Int)
    (hp : pool.pools = [a, b, c, d]) (hl : pool.linesize = [w0, w1, w2, w3])
    (hall : ∀ i, i < 4 → env.poolAlloc i = true) :
    buildVideoPools env ls size [0, 1, 2, 3] pool =
      ({ pool with
          pools :=
            [if size.getD 0 0 ≠ 0 then some (size.getD 0 0 + 16) else none,
             if size.getD 1 0 ≠ 0 then some (size.getD 1 0 + 16) else none,
             if size.getD 2 0 ≠ 0 then some (size.getD 2 0 + 16) else none,
             if size.getD 3 0 ≠ 0 then some (size.getD 3 0 + 16) else none],
          linesize := [ls.getD 0 0, ls.getD 1 0, ls.getD 2 0, ls.getD 3 0] },
       true) := by
  cases pool
  simp only at hp hl
  subst hp hl
  by_cases s0 : size[0]?.getD 0 = 0 <;> by_cases s1 : size[1]?.getD 0 = 0 <;>
    by_cases s2 : size[2]?.getD 0 = 0 <;> by_cases s3 : size[3]?.getD 0 = 0 <;>
    simp [buildVideoPools, hall 0 (by omega), hall 1 (by omega),
          hall 2 (by omega), hall 3 (by omega), s0, s1, s2, s3]

/-- C8 (amended): the pool is reused exactly when the requested shape
matches the cached descriptor (video: format/width/height; audio: format,
plane count, channel count, sample count); on a mismatch with a computable
layout all per-plane pools are torn down and rebuilt from the new sizes; a
pool-allocation failure (and audio buffer-size failure) leaves the
descriptor in the defined empty state (format -1, zero
dimensions/planes/channels/samples, all pools released); but a video
image-layout computation failure returns -1 leaving the previous
descriptor and pools in place. -/
theorem update_frame_pool_reuse_and_rebuild :
    (∀ env nch fuel pool frame,
      pool.format = frame.format → pool.width = frame.width →
      pool.height = frame.height →
      update_frame_pool env true false nch fuel pool frame =
        (pool, .ret 0)) ∧
    (∀ env nch fuel pool (frame : CFrame),
      pool.format = frame.format →
      pool.planes = (if env.fmtPlanar frame.format then nch else 1) →
      pool.channels = frame.nbChannels → frame.nbSamples = pool.samples →
      update_frame_pool env false true nch fuel pool frame =
        (pool, .ret 0)) ∧
    (∀ env nch fuel pool frame ls (a b c d : Option Int) (w0 w1 w2 w3 : Int),
      ¬(pool.format = frame.format ∧ pool.width = frame.width ∧
        pool.height = frame.height) →
      findLinesizes env (env.align2 frame.width frame.height).2.2 fuel
        (env.align2 frame.width frame.height).1 = some ls →
      0 ≤ (env.fillPtr (env.align2 frame.width frame.height).2.1 ls).1 →
      pool.pools = [a, b, c, d] → pool.linesize = [w0, w1, w2, w3] →
      (∀ i, i < 4 → env.poolAlloc i = true) →
      update_frame_pool env true false nch fuel pool frame =
        ({ pool with
            stride_align := (env.align2 frame.width frame.height).2.2,
            linesize := [ls.getD 0 0, ls.getD 1 0, ls.getD 2 0, ls.getD 3 0],
            pools :=
              [if (planeSizes
                    (env.fillPtr (env.align2 frame.width frame.height).2.1
                      ls).1
                    (env.fillPtr (env.align2 frame.width frame.height).2.1
                      ls).2).getD 0 0 ≠ 0 then
                 some ((planeSizes
                    (env.fillPtr (env.align2 frame.width frame.height).2.1
                      ls).1
                    (env.fillPtr (env.align2 frame.width frame.height).2.1
                      ls).2).getD 0 0 + 16)
               else none,
               if (planeSizes
                    (env.fillPtr (env.align2 frame.width frame.height).2.1
                      ls).1
                    (env.fillPtr (env.align2 frame.width frame.height).2.1
                      ls).2).getD 1 0 ≠ 0 then
                 some ((planeSizes
                    (env.fillPtr (env.align2 frame.width frame.height).2.1
                      ls).1
                    (env.fillPtr (env.align2 frame.width frame.height).2.1
                      ls).2).getD 1 0 + 16)
               else none,
               if (planeSizes
                    (env.fillPtr (env.align2 frame.width frame.height).2.1
                      ls).1
                    (env.fillPtr (env.align2 frame.width frame.height).2.1
                      ls).2).getD 2 0 ≠ 0 then
                 some ((planeSizes
                    (env.fillPtr (env.align2 frame.width frame.height).2.1
                      ls).1
                    (env.fillPtr (env.align2 frame.width frame.height).2.1
                      ls).2).getD 2 0 + 16)
               else none,
               if (planeSizes
                    (env.fillPtr (env.align2 frame.width frame.height).2.1
                      ls).1
                    (env.fillPtr (env.align2 frame.width frame.height).2.1
                      ls).2).getD 3 0 ≠ 0 then
                 some ((planeSizes
                    (env.fillPtr (env.align2 frame.width frame.height).2.1
                      ls).1
                    (env.fillPtr (env.align2 frame.width frame.height).2.1
                      ls).2).getD 3 0 + 16)
               else none],
            format := frame.format, width := frame.width,
            height := frame.height }, .ret 0)) ∧
    (∀ env nch fuel pool frame ls p',
      ¬(pool.format = frame.format ∧ pool.width = frame.width ∧
        pool.height = frame.height) →
      findLinesizes env (env.align2 frame.width frame.height).2.2 fuel
        (env.align2 frame.width frame.height).1 = some ls →
      0 ≤ (env.fillPtr (env.align2 frame.width frame.height).2.1 ls).1 →
      buildVideoPools env ls
          (planeSizes
            (env.fillPtr (env.align2 frame.width frame.height).2.1 ls).1
            (env.fillPtr (env.align2 frame.width frame.height).2.1 ls).2)
          [0, 1, 2, 3]
          { pool with
            stride_align := (env.align2 frame.width frame.height).2.2 } =
        (p', false) →
      update_frame_pool env true false nch fuel pool frame =
        (poolFailState p', .ret AVERROR_ENOMEM)) ∧
    (∀ env nch fuel pool frame ls,
      ¬(pool.format = frame.format ∧ pool.width = frame.width ∧
        pool.height = frame.height) →
      findLinesizes env (env.align2 frame.width frame.height).2.2 fuel
        (env.align2 frame.width frame.height).1 = some ls →
      (env.fillPtr (env.align2 frame.width frame.height).2.1 ls).1 < 0 →
      update_frame_pool env true false nch fuel pool frame =
        ({ pool with
            stride_align := (env.align2 frame.width frame.height).2.2 },
         .ret (-1))) ∧
    (∀ env nch fuel pool (frame : CFrame),
      ¬(pool.format = frame.format ∧
        pool.planes = (if env.fmtPlanar frame.format then nch else 1) ∧
        pool.channels = frame.nbChannels ∧
        frame.nbSamples = pool.samples) →
      0 ≤ (env.samplesBufSize frame.nbChannels frame.nbSamples
            frame.format).1 →
      env.poolAlloc 0 = true →
      update_frame_pool env false true nch fuel pool frame =
        ({ pool with
            pools := (pool.pools.set 0 none).set 0
              (some (env.samplesBufSize frame.nbChannels frame.nbSamples
                frame.format).2),
            linesize := pool.linesize.set 0
              (env.samplesBufSize frame.nbChannels frame.nbSamples
                frame.format).2,
            format := frame.format,
            planes := (if env.fmtPlanar frame.format then nch else 1),
            channels := frame.nbChannels,
            samples := frame.nbSamples }, .ret 0)) ∧
    (∀ env nch fuel pool (frame : CFrame),
      ¬(pool.format = frame.format ∧
        pool.planes = (if env.fmtPlanar frame.format then nch else 1) ∧
        pool.channels = frame.nbChannels ∧
        frame.nbSamples = pool.samples) →
      (((env.samplesBufSize frame.nbChannels frame.nbSamples
            frame.format).1 < 0 →
        update_frame_pool env false true nch fuel pool frame =
          (poolFailState { pool with pools := pool.pools.set 0 none },
           .ret (env.samplesBufSize frame.nbChannels frame.nbSamples
             frame.format).1)) ∧
       (0 ≤ (env.samplesBufSize frame.nbChannels frame.nbSamples
            frame.format).1 →
        env.poolAlloc 0 = false →
        update_frame_pool env false true nch fuel pool frame =
          (poolFailState
            { pool with
              pools := pool.pools.set 0 none,
              linesize := pool.linesize.set 0
                (env.samplesBufSize frame.nbChannels frame.nbSamples
                  frame.format).2 },
           .ret AVERROR_ENOMEM)))) ∧
    (∀ p, (poolFailState p).format = -1 ∧
      (poolFailState p).pools = [none, none, none, none] ∧
      (poolFailState p).width = 0 ∧ (poolFailState p).height = 0 ∧
      (poolFailState p).planes = 0 ∧ (poolFailState p).channels = 0 ∧
      (poolFailState p).samples = 0) := by
  refine ⟨?_, ?_, ?_, ?_, ?_, ?_, ?_, ?_⟩
  · intro env nch fuel pool frame h1 h2 h3
    simp [update_frame_pool, h1, h2, h3]
  · intro env nch fuel pool frame h1 h2 h3 h4
    simp [update_frame_pool, h1, h2, h3, h4]
  · intro env nch fuel pool frame ls a b c d w0 w1 w2 w3 hmis hfl htmp hp hl
      hall
    have hlt : ¬((env.fillPtr (env.align2 frame.width frame.height).2.1
        ls).1 < 0) := by omega
    rw [update_frame_pool, if_pos rfl, if_neg hmis]
    simp only [hfl, hlt, if_false]
    rw [buildVideoPools_success env ls _ _ a b c d w0 w1 w2 w3
      (by simp [hp]) (by simp [hl]) hall]
  · intro env nch fuel pool frame ls p' hmis hfl htmp hbv
    have hlt : ¬((env.fillPtr (env.align2 frame.width frame.height).2.1
        ls).1 < 0) := by omega
    rw [update_frame_pool, if_pos rfl, if_neg hmis]
    simp only [hfl, hlt, if_false]
    rw [hbv]
  · intro env nch fuel pool frame ls hmis hfl hlt
    rw [update_frame_pool, if_pos rfl, if_neg hmis]
    simp only [hfl, hlt, if_true]
  · intro env nch fuel pool frame hmis hge hal
    have hlt : ¬((env.samplesBufSize frame.nbChannels frame.nbSamples
        frame.format).1 < 0) := by omega
    simp [update_frame_pool, hmis, hlt, hal]
  · intro env nch fuel pool frame hmis
    constructor
    · intro hlt
      simp [update_frame_pool, hmis, hlt]
    · intro hge hal
      have hlt : ¬((env.samplesBufSize frame.nbChannels frame.nbSamples
          frame.format).1 < 0) := by omega
      simp [update_frame_pool, hmis, hlt, hal]
  · intro p
    simp [poolFailState]

/-- Counterexample for C8 as stated: when `av_image_fill_pointers` fails,
`update_frame_pool` reports a rebuild failure (-1) yet leaves the old
descriptor (format 5) and a live pool in place — not the defined empty
state. -/
theorem update_frame_pool_failure_counterexample :
    (update_frame_pool c8env true false 0 8 c8pool c8frame).2 = .ret (-1) ∧
    (update_frame_pool c8env true false 0 8 c8pool c8frame).1 = c8pool ∧
    ((-1 : Int) < 0) ∧
    c8pool.format ≠ -1 ∧
    c8pool.pools ≠ [none, none, none, none] := by
  refine ⟨?_, ?_, ?_, ?_, ?_⟩ <;> decide

/-- Witness for the amended C8: a matching request leaves the pool
untouched; a height mismatch rebuilds the plane pools. -/
theorem update_frame_pool_reuse_and_rebuild_witness :
    update_frame_pool c8env true false 0 8 c8pool
      { c8frame with height := 10 } = (c8pool, .ret 0) ∧
    update_frame_pool { c8env with fillPtr := fun _ _ => (256, [0, 0, 0, 0]) }
      true false 0 8 c8pool c8frame =
      ({ c8pool with
          stride_align := [1, 1, 1, 1]
          linesize := [16, 0, 0, 0]
          pools := [some 272, none, none, none]
          format := 5
          width := 10
          height := 20 }, .ret 0) :=
  ⟨update_frame_pool_reuse_and_rebuild.1 c8env 0 8 c8pool
     { c8frame with height := 10 } (by decide) (by decide) (by decide),
   by
     have h := update_frame_pool_reuse_and_rebuild.2.2.1
       { c8env with fillPtr := fun _ _ => (256, [0, 0, 0, 0]) } 0 8 c8pool
       c8frame [16, 0, 0, 0] (some 100) none none none 16 0 0 0 (by decide)
       (by decide) (by decide) rfl rfl (fun i _ => rfl)
     rw [h]
     decide⟩

theorem drainChain_passthrough_buf2 : ∀ n (rest : List Nat),
    rest.length + 1 ≤ n →
    drainChain n [.pass rest true, .buf2 [] [] false] = (rest, true) := by
  intro n
  induction n using Nat.strong_induction_on with
  | _ n ih =>
    intro rest hlen
    match rest with
    | [] =>
      obtain ⟨m, rfl⟩ : ∃ m, n = m + 1 := ⟨n - 1, by omega⟩
      have h1 : bsfs_poll testIface 16
          [.pass [] true, .buf2 [] [] false] =
          ([.pass [] true, .buf2 [] [] true], .code AVERROR_EOF) := rfl
      simp [drainChain, h1]
    | [r] =>
      have h2n : 2 ≤ n := by
        simp at hlen
        omega
      obtain ⟨m, rfl⟩ : ∃ m, n = m + 2 := ⟨n - 2, by omega⟩
      have h1 : bsfs_poll testIface 16
          [.pass [r] true, .buf2 [] [] false] =
          ([.pass [] true, .buf2 [] [] true], .pkt r) := rfl
      have h2 : bsfs_poll testIface 16
          ([.pass [] true, .buf2 [] [] true] : List TestBsf) =
          ([.pass [] true, .buf2 [] [] true], .code AVERROR_EOF) := rfl
      simp [drainChain, h1, h2]
    | r1 :: r2 :: rest' =>
      have h2n : 2 ≤ n := by
        simp at hlen
        omega
      obtain ⟨m, rfl⟩ : ∃ m, n = m + 2 := ⟨n - 2, by omega⟩
      have h1 : bsfs_poll testIface 16
          [.pass (r1 :: r2 :: rest') true, .buf2 [] [] false] =
          ([.pass rest' true, .buf2 [] [r2] false], .pkt r1) := rfl
      have h2 : bsfs_poll testIface 16
          [.pass rest' true, .buf2 [] [r2] false] =
          ([.pass rest' true, .buf2 [] [] false], .pkt r2) := rfl
      have h3 := ih m (by omega) rest' (by
        simp at hlen
        omega)
      simp [drainChain, h1, h2, h3]

theorem bsfs_poll_go_all_eagain {σ : Type} [Inhabited σ] (F : BsfIface σ)
    (nb : Nat) (hrecv : ∀ s, (F.receive s).2 = .eagain) :
    ∀ (fuel : Nat) (idx : Int) chain, -1 ≤ idx → idx + 1 < (fuel : Int) →
      (bsfs_poll_go F nb fuel idx chain).2 = .code AVERROR_EAGAIN := by
  intro fuel
  induction fuel with
  | zero =>
    intro idx chain h1 h2
    omega
  | succ f ih =>
    intro idx chain h1 h2
    rw [bsfs_poll_go]
    by_cases hneg : idx < 0
    · simp [hneg]
    · rcases hr : F.receive (chain.getD idx.toNat default) with ⟨s', rr⟩
      have := hrecv (chain.getD idx.toNat default)
      rw [hr] at this
      simp only at this
      subst this
      simp only [hneg, if_false, hr]
      exact ih (idx - 1) _ (by omega) (by omega)

/-- C9: the `bsfs_poll` depth-first walk returns `AVERROR(EAGAIN)` when
every filter reports no data, returns the last filter's packet directly,
and preserves input packet order: for every input sequence fed through a
pass-through filter followed by a filter that buffers two packets before
emitting both, draining the chain emits exactly the input sequence and
then end-of-stream. -/
theorem bsfs_poll_depth_first_and_order :
    (∀ (σ : Type) (_inst : Inhabited σ) (F : BsfIface σ) (fuel : Nat)
      (chain : List σ),
      (∀ s, (F.receive s).2 = .eagain) → chain.length < fuel →
      (bsfs_poll F fuel chain).2 = .code AVERROR_EAGAIN) ∧
    (∀ (σ : Type) (_inst : Inhabited σ) (F : BsfIface σ) (fuel : Nat)
      (chain : List σ) s' p,
      chain ≠ [] →
      F.receive (chain.getD (chain.length - 1) default) = (s', .pkt p) →
      bsfs_poll F (fuel + 1) chain =
        (chain.set (chain.length - 1) s', .pkt p)) ∧
    (∀ inputs : List Nat,
      drainChain (inputs.length + 1)
        [.pass inputs true, .buf2 [] [] false] = (inputs, true)) := by
  refine ⟨?_, ?_, ?_⟩
  · intro σ _inst F fuel chain hrecv hlen
    exact bsfs_poll_go_all_eagain F chain.length hrecv fuel _ chain
      (by omega) (by omega)
  · intro σ _inst F fuel chain s' p hne hrecv
    have hlen : 1 ≤ chain.length := by
      cases chain
      · exact absurd rfl hne
      · simp
    rw [bsfs_poll, bsfs_poll_go]
    have hneg : ¬(((chain.length : Int) - 1) < 0) := by omega
    have ht : ((chain.length : Int) - 1).toNat = chain.length - 1 := by omega
    simp only [hneg, if_false, ht, hrecv]
    simp
  · intro inputs
    exact drainChain_passthrough_buf2 (inputs.length + 1) inputs (by omega)

/-- Witness for C9 at concrete chains. -/
theorem bsfs_poll_depth_first_and_order_witness :
    (bsfs_poll eagainIface 3 [(), ()]).2 = .code AVERROR_EAGAIN ∧
    bsfs_poll testIface 1 [.buf2 [] [5] false] =
      ([.buf2 [] [] false], .pkt 5) ∧
    drainChain 4 [.pass [1, 2, 3] true, .buf2 [] [] false] =
      ([1, 2, 3], true) :=
  ⟨bsfs_poll_depth_first_and_order.1 Unit inferInstance eagainIface 3
     [(), ()] (fun s => rfl) (by decide),
   bsfs_poll_depth_first_and_order.2.1 TestBsf inferInstance testIface 0
     [.buf2 [] [5] false] (.buf2 [] [] false) 5 (by decide) rfl,
   bsfs_poll_depth_first_and_order.2.2 [1, 2, 3]⟩
